import Mathlib

/-!
Verification development for the AirQuality repository (src/api/data_sources.py).

The Python code is shallowly embedded: floating-point arithmetic is modelled
over `ℚ`, Python `round` (banker's rounding, half to even) is `pyRound`,
Python `int()` truncation toward zero is `truncQ`, Python `%` on positive
divisors is `qmod`, and calls to the `random` module are modelled by explicit
stream parameters (a seeded stream is a function of the formatted
coordinate key — sign and 3-decimal-rounded magnitude, the information in
the `f"{lat:.3f},{lon:.3f}"` seed string — and the call index, matching
`random.seed(md5(...))` followed by successive draws).
-/

/-- Python `round(x)`: round half to even (banker's rounding), from the
`round(aqi)` and `round(value, n)` calls in `data_sources.py`. -/
def pyRound (x : ℚ) : ℤ :=
  if x - ⌊x⌋ < 1/2 then ⌊x⌋
  else if 1/2 < x - ⌊x⌋ then ⌊x⌋ + 1
  else if ⌊x⌋ % 2 = 0 then ⌊x⌋ else ⌊x⌋ + 1

/-- Python `round(x, 2)`: round to 2 decimal places. -/
def round2 (x : ℚ) : ℚ := (pyRound (100 * x) : ℚ) / 100

/-- Python `round(x, 1)`: round to 1 decimal place. -/
def round1 (x : ℚ) : ℚ := (pyRound (10 * x) : ℚ) / 10

/-- Python `int(x)`: truncation toward zero. -/
def truncQ (x : ℚ) : ℤ := if 0 ≤ x then ⌊x⌋ else -⌊-x⌋

/-- Python `x % m` for floats with positive modulus `m`. -/
def qmod (x m : ℚ) : ℚ := x - m * ⌊x / m⌋

theorem pyRound_floor_le (x : ℚ) : ⌊x⌋ ≤ pyRound x := by
  unfold pyRound
  split_ifs <;> omega

theorem pyRound_le_floor_add_one (x : ℚ) : pyRound x ≤ ⌊x⌋ + 1 := by
  unfold pyRound
  split_ifs <;> omega

theorem pyRound_intCast (n : ℤ) : pyRound (n : ℚ) = n := by
  unfold pyRound
  rw [Int.floor_intCast, sub_self]
  norm_num

theorem pyRound_mono {x y : ℚ} (h : x ≤ y) : pyRound x ≤ pyRound y := by
  have hf : ⌊x⌋ ≤ ⌊y⌋ := Int.floor_le_floor h
  rcases lt_or_eq_of_le hf with hlt | heq
  · calc pyRound x ≤ ⌊x⌋ + 1 := pyRound_le_floor_add_one x
      _ ≤ ⌊y⌋ := by omega
      _ ≤ pyRound y := pyRound_floor_le y
  · -- same floor: compare fractional parts through the if-chain
    have hrx : x - ⌊x⌋ ≤ y - ⌊y⌋ := by
      rw [← heq]
      linarith
    unfold pyRound
    rw [← heq]
    split_ifs with h1 h2 h3 h4 h5 h6 h7 h8 h9 h10 h11 <;> try omega
    all_goals (exfalso; try linarith)

theorem le_pyRound_of_intCast_le {n : ℤ} {x : ℚ} (h : (n : ℚ) ≤ x) :
    n ≤ pyRound x := by
  have := pyRound_mono h
  rwa [pyRound_intCast] at this

theorem pyRound_le_of_le_intCast {n : ℤ} {x : ℚ} (h : x ≤ (n : ℚ)) :
    pyRound x ≤ n := by
  have := pyRound_mono h
  rwa [pyRound_intCast] at this

theorem truncQ_nonneg {x : ℚ} (h : 0 ≤ x) : 0 ≤ truncQ x := by
  unfold truncQ
  rw [if_pos h]
  exact Int.floor_nonneg.mpr h

theorem truncQ_le_of_le {x : ℚ} {n : ℤ} (h0 : 0 ≤ x) (h : x ≤ (n : ℚ)) :
    truncQ x ≤ n := by
  unfold truncQ
  rw [if_pos h0]
  have h1 : ⌊x⌋ ≤ ⌊(n : ℚ)⌋ := Int.floor_le_floor h
  rwa [Int.floor_intCast] at h1

/-! ### AQI converters (`_pm25_to_aqi`, `_o3_to_aqi`, `_no2_to_aqi`) -/

/-- EPA AQI breakpoints for PM2.5, the `breakpoints` list in `_pm25_to_aqi`:
`(bp_lo, bp_hi, aqi_lo, aqi_hi)`. -/
def pm25Breakpoints : List (ℚ × ℚ × ℚ × ℚ) :=
  [(0, 12.0, 0, 50),
   (12.1, 35.4, 51, 100),
   (35.5, 55.4, 101, 150),
   (55.5, 150.4, 151, 200),
   (150.5, 250.4, 201, 300),
   (250.5, 500.4, 301, 500)]

/-- The linear interpolation inside the breakpoint loop:
`((aqi_hi - aqi_lo) / (bp_hi - bp_lo)) * (c - bp_lo) + aqi_lo`. -/
def linAqi (bpLo bpHi aqiLo aqiHi c : ℚ) : ℚ :=
  (aqiHi - aqiLo) / (bpHi - bpLo) * (c - bpLo) + aqiLo

/-- First breakpoint band whose range contains `c`, mirroring the
`for bp_lo, bp_hi, aqi_lo, aqi_hi in breakpoints` loop. -/
def findBand (c : ℚ) : List (ℚ × ℚ × ℚ × ℚ) → Option (ℚ × ℚ × ℚ × ℚ)
  | [] => none
  | b :: rest => if b.1 ≤ c ∧ c ≤ b.2.1 then some b else findBand c rest

/-- The embedded `DataFusionEngine._pm25_to_aqi`: piecewise-linear EPA conversion with
Python `round`; falls through to `500` when no band matches. -/
def pm25_to_aqi (c : ℚ) : ℚ :=
  match findBand c pm25Breakpoints with
  | some (lo, hi, alo, ahi) => ((pyRound (linAqi lo hi alo ahi c) : ℤ) : ℚ)
  | none => 500

/-- The embedded `DataFusionEngine._o3_to_aqi`: simplified four-band conversion with a
saturating top branch. -/
def o3_to_aqi (c : ℚ) : ℚ :=
  if c ≤ 54 then 50 / 54 * c
  else if c ≤ 70 then 51 + (100 - 51) / (70 - 55) * (c - 55)
  else if c ≤ 85 then 101 + (150 - 101) / (85 - 71) * (c - 71)
  else if c ≤ 105 then 151 + (200 - 151) / (105 - 86) * (c - 86)
  else min 500 (201 + (c - 106) * 2)

/-- The embedded `DataFusionEngine._no2_to_aqi`: simplified conversion with a saturating
top branch. -/
def no2_to_aqi (c : ℚ) : ℚ :=
  if c ≤ 53 then 50 / 53 * c
  else if c ≤ 100 then 51 + (100 - 51) / (100 - 54) * (c - 54)
  else if c ≤ 360 then 101 + (150 - 101) / (360 - 101) * (c - 101)
  else min 500 (151 + (c - 361) * 0.5)

theorem findBand_sound {c : ℚ} {l : List (ℚ × ℚ × ℚ × ℚ)} {b : ℚ × ℚ × ℚ × ℚ}
    (h : findBand c l = some b) : b ∈ l ∧ b.1 ≤ c ∧ c ≤ b.2.1 := by
  induction l with
  | nil => simp [findBand] at h
  | cons hd tl ih =>
    unfold findBand at h
    split_ifs at h with hcond
    · cases h
      exact ⟨List.mem_cons_self _ _, hcond⟩
    · rcases ih h with ⟨hmem, hb⟩
      exact ⟨List.mem_cons_of_mem _ hmem, hb⟩

/-- Evaluating `_pm25_to_aqi` on a concentration inside a band of the table
gives the rounded linear interpolation of that band. -/
theorem pm25_eval_band {c lo hi alo ahi : ℚ}
    (hmem : (lo, hi, alo, ahi) ∈ pm25Breakpoints)
    (h1 : lo ≤ c) (h2 : c ≤ hi) :
    pm25_to_aqi c = ((pyRound (linAqi lo hi alo ahi c) : ℤ) : ℚ) := by
  have hcases := hmem
  simp only [pm25Breakpoints, List.mem_cons, List.not_mem_nil, or_false,
    Prod.mk.injEq] at hcases
  simp only [pm25_to_aqi, pm25Breakpoints, findBand]
  rcases hcases with ⟨e1, e2, e3, e4⟩ | ⟨e1, e2, e3, e4⟩ | ⟨e1, e2, e3, e4⟩ |
      ⟨e1, e2, e3, e4⟩ | ⟨e1, e2, e3, e4⟩ | ⟨e1, e2, e3, e4⟩ <;>
    subst e1 <;> subst e2 <;> subst e3 <;> subst e4
  · rw [if_pos ⟨h1, h2⟩]
  · rw [if_neg (by push_neg; intro; linarith), if_pos ⟨h1, h2⟩]
  · rw [if_neg (by push_neg; intro; linarith),
      if_neg (by push_neg; intro; linarith), if_pos ⟨h1, h2⟩]
  · rw [if_neg (by push_neg; intro; linarith),
      if_neg (by push_neg; intro; linarith),
      if_neg (by push_neg; intro; linarith), if_pos ⟨h1, h2⟩]
  · rw [if_neg (by push_neg; intro; linarith),
      if_neg (by push_neg; intro; linarith),
      if_neg (by push_neg; intro; linarith),
      if_neg (by push_neg; intro; linarith), if_pos ⟨h1, h2⟩]
  · rw [if_neg (by push_neg; intro; linarith),
      if_neg (by push_neg; intro; linarith),
      if_neg (by push_neg; intro; linarith),
      if_neg (by push_neg; intro; linarith),
      if_neg (by push_neg; intro; linarith), if_pos ⟨h1, h2⟩]

/-- Above the top band every breakpoint check fails and the loop falls
through to `500`. -/
theorem pm25_above_top {c : ℚ} (h : 500.4 < c) : pm25_to_aqi c = 500 := by
  simp only [pm25_to_aqi, pm25Breakpoints, findBand]
  rw [if_neg (by push_neg; intro; linarith),
    if_neg (by push_neg; intro; linarith),
    if_neg (by push_neg; intro; linarith),
    if_neg (by push_neg; intro; linarith),
    if_neg (by push_neg; intro; linarith),
    if_neg (by push_neg; intro; linarith)]

/-- Every band of the PM2.5 table has positive width, a nondecreasing index
range, and index endpoints inside `[0, 500]`. -/
theorem pm25_bands_wf :
    ∀ b ∈ pm25Breakpoints,
      b.1 < b.2.1 ∧ b.2.2.1 ≤ b.2.2.2 ∧ 0 ≤ b.2.2.1 ∧ b.2.2.2 ≤ 500 := by
  intro b hb
  simp only [pm25Breakpoints, List.mem_cons, List.not_mem_nil, or_false] at hb
  rcases hb with rfl | rfl | rfl | rfl | rfl | rfl <;> norm_num

theorem linAqi_mono {lo hi alo ahi c1 c2 : ℚ} (hw : lo < hi) (ha : alo ≤ ahi)
    (h12 : c1 ≤ c2) : linAqi lo hi alo ahi c1 ≤ linAqi lo hi alo ahi c2 := by
  have hs : 0 ≤ (ahi - alo) / (hi - lo) :=
    div_nonneg (by linarith) (by linarith)
  have := mul_le_mul_of_nonneg_left (sub_le_sub_right h12 lo) hs
  unfold linAqi
  linarith

theorem linAqi_at_lo (lo hi alo ahi : ℚ) : linAqi lo hi alo ahi lo = alo := by
  unfold linAqi
  ring

theorem linAqi_at_hi {lo hi : ℚ} (alo ahi : ℚ) (hw : lo < hi) :
    linAqi lo hi alo ahi hi = ahi := by
  unfold linAqi
  have hne : hi - lo ≠ 0 := by linarith
  field_simp

/-- The embedded `_pm25_to_aqi` always lands in `[0, 500]`: inside a band the rounded
interpolation stays between the band's index endpoints, and outside every
band the function returns `500`. -/
theorem pm25_range (c : ℚ) : 0 ≤ pm25_to_aqi c ∧ pm25_to_aqi c ≤ 500 := by
  rcases hfb : findBand c pm25Breakpoints with _ | ⟨⟨lo, hi, alo, ahi⟩⟩
  · unfold pm25_to_aqi
    rw [hfb]
    norm_num
  · rcases findBand_sound hfb with ⟨hmem, hlo, hhi⟩
    rcases pm25_bands_wf _ hmem with ⟨hw, ha, h0, h500⟩
    have hval : pm25_to_aqi c = ((pyRound (linAqi lo hi alo ahi c) : ℤ) : ℚ) := by
      unfold pm25_to_aqi
      rw [hfb]
    have hlow : alo ≤ linAqi lo hi alo ahi c := by
      have := linAqi_mono hw ha hlo
      rwa [linAqi_at_lo] at this
    have hhigh : linAqi lo hi alo ahi c ≤ ahi := by
      have := linAqi_mono hw ha hhi
      rwa [linAqi_at_hi alo ahi hw] at this
    constructor
    · rw [hval]
      have : (0 : ℤ) ≤ pyRound (linAqi lo hi alo ahi c) :=
        le_pyRound_of_intCast_le (by push_cast; linarith)
      exact_mod_cast this
    · rw [hval]
      have : pyRound (linAqi lo hi alo ahi c) ≤ (500 : ℤ) :=
        pyRound_le_of_le_intCast (by push_cast; linarith)
      exact_mod_cast this

/-- The embedded `_o3_to_aqi` maps nonnegative concentrations into `[0, 500]`. -/
theorem o3_range {c : ℚ} (h : 0 ≤ c) :
    0 ≤ o3_to_aqi c ∧ o3_to_aqi c ≤ 500 := by
  unfold o3_to_aqi
  split_ifs with h1 h2 h3 h4
  · constructor <;> linarith
  · constructor <;> linarith
  · constructor <;> linarith
  · constructor <;> linarith
  · constructor
    · exact le_min (by norm_num) (by linarith)
    · exact min_le_left _ _

/-- The embedded `_no2_to_aqi` maps nonnegative concentrations into `[0, 500]`. -/
theorem no2_range {c : ℚ} (h : 0 ≤ c) :
    0 ≤ no2_to_aqi c ∧ no2_to_aqi c ≤ 500 := by
  unfold no2_to_aqi
  split_ifs with h1 h2 h3
  · constructor <;> linarith
  · constructor <;> linarith
  · constructor <;> linarith
  · constructor
    · refine le_min (by norm_num) (by norm_num; linarith)
    · exact min_le_left _ _

/-! ### Claim C2: converter monotonicity -/

/-- Claim C2 (counterexample): the PM2.5 conversion is not monotonic
non-decreasing over its whole input domain.  The concentration `12.05` lies
in the gap between the first band (ending at `12.0`) and the second band
(starting at `12.1`), so the loop falls through and returns `500`, while
`12.1` itself converts to `51`. -/
theorem C2_counterexample :
    (12.05 : ℚ) < 12.1 ∧ pm25_to_aqi 12.05 = 500 ∧ pm25_to_aqi 12.1 = 51 ∧
      ¬ pm25_to_aqi 12.05 ≤ pm25_to_aqi 12.1 := by
  have h1 : pm25_to_aqi 12.05 = 500 := by
    simp only [pm25_to_aqi, pm25Breakpoints, findBand]
    norm_num
  have h2 : pm25_to_aqi 12.1 = 51 := by
    simp only [pm25_to_aqi, pm25Breakpoints, findBand]
    norm_num [linAqi, pyRound, Int.floor_eq_iff]
  exact ⟨by norm_num, h1, h2, by rw [h1, h2]; norm_num⟩

/-- Claim C2 (amended): each pollutant converter is monotonic non-decreasing
on concentrations lying within one breakpoint band (PM2.5) or within one
branch of the if-chain (O3, NO2); global monotonicity fails at the PM2.5
inter-band gaps and at the O3/NO2 branch boundaries. -/
theorem C2_monotone_within_bands :
    (∀ lo hi alo ahi c1 c2, (lo, hi, alo, ahi) ∈ pm25Breakpoints →
        lo ≤ c1 → c1 ≤ c2 → c2 ≤ hi →
        pm25_to_aqi c1 ≤ pm25_to_aqi c2) ∧
    (∀ c1 c2, c1 ≤ c2 →
        c2 ≤ 54 ∨ (54 < c1 ∧ c2 ≤ 70) ∨ (70 < c1 ∧ c2 ≤ 85) ∨
          (85 < c1 ∧ c2 ≤ 105) ∨ 105 < c1 →
        o3_to_aqi c1 ≤ o3_to_aqi c2) ∧
    (∀ c1 c2, c1 ≤ c2 →
        c2 ≤ 53 ∨ (53 < c1 ∧ c2 ≤ 100) ∨ (100 < c1 ∧ c2 ≤ 360) ∨ 360 < c1 →
        no2_to_aqi c1 ≤ no2_to_aqi c2) := by
  refine ⟨?_, ?_, ?_⟩
  · intro lo hi alo ahi c1 c2 hmem hl h12 hh
    rcases pm25_bands_wf _ hmem with ⟨hw, ha, _, _⟩
    rw [pm25_eval_band hmem hl (le_trans h12 hh),
      pm25_eval_band hmem (le_trans hl h12) hh]
    exact_mod_cast pyRound_mono (linAqi_mono hw ha h12)
  · intro c1 c2 h12 hbr
    unfold o3_to_aqi
    rcases hbr with hb | ⟨ha, hb⟩ | ⟨ha, hb⟩ | ⟨ha, hb⟩ | ha
    · rw [if_pos (le_trans h12 hb), if_pos hb]
      linarith
    · rw [if_neg (not_le.mpr ha), if_pos (le_trans h12 hb),
        if_neg (not_le.mpr (by linarith)), if_pos hb]
      linarith
    · rw [if_neg (not_le.mpr (by linarith)), if_neg (not_le.mpr ha),
        if_pos (le_trans h12 hb), if_neg (not_le.mpr (by linarith)),
        if_neg (not_le.mpr (by linarith)), if_pos hb]
      linarith
    · rw [if_neg (not_le.mpr (by linarith)), if_neg (not_le.mpr (by linarith)),
        if_neg (not_le.mpr ha), if_pos (le_trans h12 hb),
        if_neg (not_le.mpr (by linarith)), if_neg (not_le.mpr (by linarith)),
        if_neg (not_le.mpr (by linarith)), if_pos hb]
      linarith
    · rw [if_neg (not_le.mpr (by linarith)), if_neg (not_le.mpr (by linarith)),
        if_neg (not_le.mpr (by linarith)), if_neg (not_le.mpr ha),
        if_neg (not_le.mpr (by linarith)), if_neg (not_le.mpr (by linarith)),
        if_neg (not_le.mpr (by linarith)), if_neg (not_le.mpr (by linarith))]
      exact min_le_min (le_refl _) (by linarith)
  · intro c1 c2 h12 hbr
    unfold no2_to_aqi
    rcases hbr with hb | ⟨ha, hb⟩ | ⟨ha, hb⟩ | ha
    · rw [if_pos (le_trans h12 hb), if_pos hb]
      linarith
    · rw [if_neg (not_le.mpr ha), if_pos (le_trans h12 hb),
        if_neg (not_le.mpr (by linarith)), if_pos hb]
      linarith
    · rw [if_neg (not_le.mpr (by linarith)), if_neg (not_le.mpr ha),
        if_pos (le_trans h12 hb), if_neg (not_le.mpr (by linarith)),
        if_neg (not_le.mpr (by linarith)), if_pos hb]
      linarith
    · rw [if_neg (not_le.mpr (by linarith)), if_neg (not_le.mpr (by linarith)),
        if_neg (not_le.mpr ha), if_neg (not_le.mpr (by linarith)),
        if_neg (not_le.mpr (by linarith)), if_neg (not_le.mpr (by linarith))]
      exact min_le_min (le_refl _) (by linarith)

/-- Claim C2 (witness): the amended monotonicity theorem applied at concrete
in-band inputs. -/
theorem C2_witness :
    pm25_to_aqi 3 ≤ pm25_to_aqi 5 ∧ o3_to_aqi 10 ≤ o3_to_aqi 20 ∧
      no2_to_aqi 10 ≤ no2_to_aqi 20 :=
  ⟨C2_monotone_within_bands.1 0 12.0 0 50 3 5 (by simp [pm25Breakpoints])
      (by norm_num) (by norm_num) (by norm_num),
   C2_monotone_within_bands.2.1 10 20 (by norm_num) (Or.inl (by norm_num)),
   C2_monotone_within_bands.2.2 10 20 (by norm_num) (Or.inl (by norm_num))⟩

/-! ### Claim C7: PM2.5 band formula and boundary values -/

/-- Claim C7: inside any of the six EPA bands, `_pm25_to_aqi` returns the
rounded linear interpolation for that band; `12.0` converts to `50`, `12.1`
converts to `51`, and every concentration above the top band yields `500`.
(Python `round` is banker's rounding, modelled by `pyRound`.) -/
theorem C7_pm25_band_formula :
    (∀ c lo hi alo ahi, (lo, hi, alo, ahi) ∈ pm25Breakpoints →
        lo ≤ c → c ≤ hi →
        pm25_to_aqi c = ((pyRound ((ahi - alo) / (hi - lo) * (c - lo) + alo) : ℤ) : ℚ)) ∧
    pm25_to_aqi 12.0 = 50 ∧ pm25_to_aqi 12.1 = 51 ∧
    (∀ c, 500.4 < c → pm25_to_aqi c = 500) := by
  refine ⟨?_, ?_, ?_, fun c hc => pm25_above_top hc⟩
  · intro c lo hi alo ahi hmem h1 h2
    exact pm25_eval_band hmem h1 h2
  · simp only [pm25_to_aqi, pm25Breakpoints, findBand]
    norm_num [linAqi, pyRound, Int.floor_eq_iff]
  · simp only [pm25_to_aqi, pm25Breakpoints, findBand]
    norm_num [linAqi, pyRound, Int.floor_eq_iff]

/-- Claim C7 (witness): the band formula evaluated at the concrete in-band
concentration `20` and at the above-top concentration `600`. -/
theorem C7_witness :
    pm25_to_aqi 20 = ((pyRound ((100 - 51) / (35.4 - 12.1) * (20 - 12.1) + 51) : ℤ) : ℚ) ∧
      pm25_to_aqi 600 = 500 :=
  ⟨C7_pm25_band_formula.1 20 12.1 35.4 51 100 (by simp [pm25Breakpoints])
      (by norm_num) (by norm_num),
   C7_pm25_band_formula.2.2.2 600 (by norm_num)⟩

/-! ### Data model and random streams -/

/-- Unseeded stream of draws from the process-global `random` module. -/
abbrev RandStream := ℕ → ℚ

/-- Python `f"{x:.3f}"`: the information in the formatted token — the sign
(printed for every negative input, even one whose digits round to zero, so
`f"{-0.0001:.3f}"` is `"-0.000"` while `f"{0.0001:.3f}"` is `"0.000"`)
together with the magnitude rounded half-even to thousandths. -/
def fmt3 (x : ℚ) : Bool × ℤ := (decide (x < 0), pyRound (1000 * |x|))

/-- Seeded stream: `random.seed(md5(f"{lat:.3f},{lon:.3f}"))` makes every
subsequent draw a function of the two formatted coordinate tokens and the
draw index; coordinates whose formatted strings differ (including
`"-0.000"` vs `"0.000"`) key different streams. -/
abbrev SeededRand := (Bool × ℤ) × (Bool × ℤ) → ℕ → ℚ

/-- Python `random.uniform(a, b)` driven by a stream value `r ∈ [0, 1]`. -/
def uniformFrom (r a b : ℚ) : ℚ := a + (b - a) * r

theorem fmt3_eval_pos {x : ℚ} {n : ℤ} (hx : 0 < x)
    (h : pyRound (1000 * x) = n) : fmt3 x = (false, n) := by
  unfold fmt3
  rw [abs_of_pos hx]
  simp only [Prod.mk.injEq]
  constructor
  · rw [decide_eq_false_iff_not]
    intro hlt
    linarith
  · exact h

theorem fmt3_eval_neg {x : ℚ} {n : ℤ} (hx : x < 0)
    (h : pyRound (1000 * -x) = n) : fmt3 x = (true, n) := by
  unfold fmt3
  rw [abs_of_neg hx]
  simp only [Prod.mk.injEq]
  constructor
  · rw [decide_eq_true_eq]
    exact hx
  · exact h

/-- One ground station entry of `stations_data` (station names are location
strings in the source; measurement values may be missing, hence `Option`). -/
structure Station where
  name : String
  distance_km : ℚ
  measurements : List (String × Option ℚ)
deriving DecidableEq

/-- A ground-sensor payload: the common shape of the dictionaries produced
by `_process_openaq_data`, `_generate_mock_openaq_data`,
`_generate_emergency_fallback_data` and `_process_aqicn_data`.  AQICN
payloads carry `overall_aqi` and `pollutants` but no
`averaged_measurements`; OpenAQ-style payloads carry `stations` and
`averaged_measurements` (pollutant ↦ (value, confidence)). -/
structure SensorData where
  source : String
  overall_aqi : Option ℚ
  pollutants : List (String × ℚ)
  stations : List Station
  averaged_measurements : List (String × ℚ × ℚ)
deriving DecidableEq

/-- A satellite payload (`_generate_mock_tempo_data`): pollutant ↦ value. -/
structure SatData where
  pollutants : List (String × ℚ)
deriving DecidableEq

/-- A weather payload; only the fields the fusion pipeline reads are
modelled (`air_quality_impact`, `wind_speed`). -/
structure Weather where
  air_quality_impact : String
  wind_speed : ℚ

deriving DecidableEq
/-- The metrics dictionary produced by `_calculate_primary_aqi` and then
threaded through `_enhance_with_satellite_data` and
`_apply_weather_corrections` (absent keys are `none`/`false`). -/
structure PrimaryMetrics where
  overall_aqi : ℚ
  pollutants : List (String × ℚ)
  primary_source : String
  confidence : String
  satellite_enhancement : Bool
  weather_adjusted_aqi : Option ℤ
  weather_impact : Option String
deriving DecidableEq

/-! ### Primary AQI calculation (`_calculate_primary_aqi`) -/

/-- Source string tag that selects the AQICN payload format. -/
def aqicnSource : String := "AQICN (World Air Quality Index)"

/-- Python truthiness of the `overall_aqi` field read by
`if overall_aqi:` — `None` and `0` are falsy. -/
def aqiTruthy : Option ℚ → Bool
  | none => false
  | some v => decide (v ≠ 0)

/-- Python `max` of a list (`None` for the empty list). -/
def pyMax : List ℚ → Option ℚ
  | [] => none
  | x :: xs => some (xs.foldl max x)

/-- The embedded `DataFusionEngine._generate_fallback_aqi`: unseeded random fallback.
`base_aqi = random.randint(25, 150)` is modelled by `fallbackAqi` and the
PM2.5 estimate's `random.uniform(-5, 5)` draw by `fallbackRand`. -/
def generateFallbackAqi (fallbackAqi : ℤ) (fallbackRand : ℚ) : PrimaryMetrics :=
  { overall_aqi := (fallbackAqi : ℚ)
    pollutants :=
      [("pm25", round1 ((fallbackAqi : ℚ) * 0.4 + uniformFrom fallbackRand (-5) 5))]
    primary_source := "fallback_model"
    confidence := "low"
    satellite_enhancement := false
    weather_adjusted_aqi := none
    weather_impact := none }

/-- The embedded `DataFusionEngine._calculate_primary_aqi`: prefer a truthy AQICN
pre-computed index; otherwise convert each of pm25/o3/no2 present in the
averaged measurements and take the maximum (default `50`); fall back to
`_generate_fallback_aqi` when there is no sensor data or no averaged
measurements. -/
def calculatePrimaryAqi (fallbackAqi : ℤ) (fallbackRand : ℚ)
    (sensor : Option SensorData) : PrimaryMetrics :=
  match sensor with
  | none => generateFallbackAqi fallbackAqi fallbackRand
  | some s =>
    if s.source = aqicnSource ∧ aqiTruthy s.overall_aqi then
      { overall_aqi := s.overall_aqi.getD 0
        pollutants := s.pollutants
        primary_source := "aqicn"
        confidence := "high"
        satellite_enhancement := false
        weather_adjusted_aqi := none
        weather_impact := none }
    else if s.averaged_measurements = [] then
      generateFallbackAqi fallbackAqi fallbackRand
    else
      let pm25A := (s.averaged_measurements.lookup "pm25").map
        (fun pr => (pr.1, pm25_to_aqi pr.1))
      let o3A := (s.averaged_measurements.lookup "o3").map
        (fun pr => (pr.1, o3_to_aqi pr.1))
      let no2A := (s.averaged_measurements.lookup "no2").map
        (fun pr => (pr.1, no2_to_aqi pr.1))
      let aqiValues := pm25A.toList.map Prod.snd ++ o3A.toList.map Prod.snd ++
        no2A.toList.map Prod.snd
      let overall := (pyMax aqiValues).getD 50
      { overall_aqi := ((truncQ overall : ℤ) : ℚ)
        pollutants := pm25A.toList.map (fun e => ("pm25", e.1)) ++
          o3A.toList.map (fun e => ("o3", e.1)) ++
          no2A.toList.map (fun e => ("no2", e.1))
        primary_source := "ground_sensors"
        confidence := if 2 ≤ aqiValues.length then "high" else "medium"
        satellite_enhancement := false
        weather_adjusted_aqi := none
        weather_impact := none }

/-! ### Satellite enhancement and weather corrections -/

/-- The embedded `DataFusionEngine._enhance_with_satellite_data`: when satellite data
with a nonempty pollutant map is present, attach the estimated surface NO2
(`column_value * 0.1`) and set the enhancement flag. -/
def enhanceWithSatelliteData (m : PrimaryMetrics) (tempo : Option SatData) :
    PrimaryMetrics :=
  match tempo with
  | none => m
  | some t =>
    if t.pollutants = [] then m
    else
      let m1 := match t.pollutants.lookup "no2" with
        | some col =>
          { m with pollutants := m.pollutants ++ [("no2_satellite", round2 (col * 0.1))] }
        | none => m
      { m1 with satellite_enhancement := true }

/-- Weather adjustment factor keyed on `air_quality_impact`
(`_apply_weather_corrections`). -/
def dispersionFactor (impact : String) : ℚ :=
  if impact = "good_dispersion" then 0.9
  else if impact = "poor_dispersion" ∨ impact = "stagnant" then 1.1
  else if impact = "cleansing" then 0.8
  else 1.0

/-- The embedded `DataFusionEngine._apply_weather_corrections`: with weather present,
`weather_adjusted_aqi = int(overall_aqi * adjustment_factor)` (Python `int`
truncation, no rounding, no clamping). -/
def applyWeatherCorrections (m : PrimaryMetrics) (weather : Option Weather) :
    PrimaryMetrics :=
  match weather with
  | none => m
  | some w =>
    { m with
      weather_adjusted_aqi := some (truncQ (m.overall_aqi * dispersionFactor w.air_quality_impact))
      weather_impact := some w.air_quality_impact }

/-! ### Fusion (`_fuse_data_sources`) -/

/-- The fused result: per-source presence flags, quality label, and the
metrics dictionary (overall index, confidence, weather adjustment). -/
structure FusionResult where
  satellite : Bool
  ground : Bool
  aqicn : Bool
  weather : Bool
  data_quality : String
  metrics : PrimaryMetrics

/-- The embedded `DataFusionEngine._fuse_data_sources`: presence flags, quality label
(`"high"` iff satellite AND a ground source AND weather are present), then
primary AQI (preferring AQICN via `aqicn_data or openaq_data`), satellite
enhancement and weather corrections. -/
def selectGround (aqicnD openaq : Option SensorData) : Option SensorData :=
  match aqicnD with
  | some a => some a
  | none => openaq

def fuseDataSources (tempo : Option SatData) (openaq aqicnD : Option SensorData)
    (weather : Option Weather) (fallbackAqi : ℤ) (fallbackRand : ℚ) :
    FusionResult :=
  let primary := calculatePrimaryAqi fallbackAqi fallbackRand (selectGround aqicnD openaq)
  let enhanced := enhanceWithSatelliteData primary tempo
  let adjusted := applyWeatherCorrections enhanced weather
  { satellite := tempo.isSome
    ground := openaq.isSome || aqicnD.isSome
    aqicn := aqicnD.isSome
    weather := weather.isSome
    data_quality :=
      if tempo.isSome ∧ (openaq.isSome ∨ aqicnD.isSome) ∧ weather.isSome
      then "high" else "medium"
    metrics := adjusted }

/-! ### Spatial averaging (`_calculate_weighted_average`) -/

/-- Accumulated `(total_value, total_weight)` for one pollutant: a station
contributes `value * weight` and `weight = 1/(distance_km + 1)` exactly
when it lists the pollutant with a non-`None` value. -/
def sumsFor (stations : List Station) (param : String) : ℚ × ℚ :=
  stations.foldl
    (fun acc st =>
      match st.measurements.lookup param with
      | some (some v) =>
        (acc.1 + v * (1 / (st.distance_km + 1)), acc.2 + 1 / (st.distance_km + 1))
      | _ => acc)
    (0, 0)

/-- First-appearance order of pollutant keys across all stations (the
Python dict key order of `weighted_measurements`). -/
def paramKeys (stations : List Station) : List String :=
  stations.foldl
    (fun ks st =>
      st.measurements.foldl
        (fun ks2 pm => if ks2.contains pm.1 then ks2 else ks2 ++ [pm.1]) ks)
    []

/-- The embedded `OpenAQDataSource._calculate_weighted_average`: for each pollutant with
positive accumulated weight, value `round(total_value/total_weight, 2)` and
confidence `min(total_weight * 10, 100)`. -/
def calculateWeightedAverage (stations : List Station) :
    List (String × ℚ × ℚ) :=
  (paramKeys stations).filterMap
    (fun p =>
      let s := sumsFor stations p
      if 0 < s.2 then some (p, round2 (s.1 / s.2), min (s.2 * 10) 100)
      else none)

/-! ### OpenAQ processing (`_process_openaq_data`) -/

/-- One element of the OpenAQ `results` array: a station `location` name,
optional coordinates, and parameter measurements with optional values. -/
structure RawMeasurement where
  location : String
  coordinates : Option (ℚ × ℚ)
  measurements : List (String × Option ℚ)
deriving DecidableEq

/-- Python dict update: replace the first binding of `k` in place, else
append. -/
def updateAssoc (l : List (String × Option ℚ)) (k : String) (v : Option ℚ) :
    List (String × Option ℚ) :=
  match l with
  | [] => [(k, v)]
  | (k0, v0) :: rest =>
    if k0 = k then (k, v) :: rest else (k0, v0) :: updateAssoc rest k v

/-- The geodesic distance computation (`_calculate_distance`) depends on
the external `geopy` library; it is abstracted as a total function
(the `except` branch guarantees some finite value, 999.0 on failure). -/
abbrev DistanceFn := ℚ → ℚ → ℚ → ℚ → ℚ

/-- Insert one raw measurement into the station dictionary keyed by
`location`: first occurrence creates the station (with its distance),
later occurrences merge parameter entries with dict-update semantics. -/
def insertRaw (dist : DistanceFn) (lat lon : ℚ) (acc : List Station)
    (m : RawMeasurement) : List Station :=
  if acc.any (fun st => st.name = m.location) then
    acc.map (fun st =>
      if st.name = m.location then
        { st with measurements :=
            m.measurements.foldl (fun a pv => updateAssoc a pv.1 pv.2) st.measurements }
      else st)
  else
    acc ++ [{ name := m.location
              distance_km := dist lat lon (m.coordinates.getD (lat, lon)).1
                (m.coordinates.getD (lat, lon)).2
              measurements :=
                m.measurements.foldl (fun a pv => updateAssoc a pv.1 pv.2) [] }]

/-- The `stations_data` dictionary built by `_process_openaq_data`, in
insertion order. -/
def groupStations (dist : DistanceFn) (lat lon : ℚ)
    (raws : List RawMeasurement) : List Station :=
  raws.foldl (insertRaw dist lat lon) []

/-- The embedded `OpenAQDataSource._process_openaq_data`: `None` on an empty result set;
otherwise group by station, report only the first 3 stations
(`list(stations_data.values())[:3]`), and attach weighted averages computed
over ALL grouped stations. -/
def processOpenaqData (dist : DistanceFn) (raws : List RawMeasurement)
    (lat lon : ℚ) : Option SensorData :=
  if raws = [] then none
  else
    let grouped := groupStations dist lat lon raws
    some { source := "OpenAQ"
           overall_aqi := none
           pollutants := []
           stations := grouped.take 3
           averaged_measurements := calculateWeightedAverage grouped }

/-! ### Fallback synthesizers -/

/-- The three pollutant values generated by
`OpenAQDataSource._generate_mock_openaq_data` (identical in the station
entry and in `averaged_measurements`). -/
structure MockValues where
  pm25 : ℚ
  pm10 : ℚ
  no2 : ℚ
deriving DecidableEq

/-- The `is_india` region flag, computed from the RAW coordinates. -/
def isIndia (lat lon : ℚ) : Bool :=
  decide (6 ≤ lat ∧ lat ≤ 37 ∧ 68 ≤ lon ∧ lon ≤ 97)

/-- The `is_urban` flag (`abs(lat - round(lat)) < 0.1` etc.), computed from
the RAW coordinates. -/
def isUrban (lat lon : ℚ) : Bool :=
  decide (|lat - (pyRound lat : ℚ)| < 0.1 ∧ |lon - (pyRound lon : ℚ)| < 0.1)

/-- Pollutant values of `_generate_mock_openaq_data`: random draws are
seeded by the formatted coordinate tokens, but the region flags use the
raw coordinates. -/
def mockOpenaqValues (srand : SeededRand) (lat lon : ℚ) : MockValues :=
  let key := (fmt3 lat, fmt3 lon)
  let u := fun i a b => uniformFrom (srand key i) a b
  let pm25 := if isIndia lat lon then
      (if isUrban lat lon then u 0 25 65 else u 0 15 45)
    else (if isUrban lat lon then u 0 8 25 else u 0 5 15)
  let pm10 := pm25 * (if isIndia lat lon then u 1 1.5 2.5 else u 1 1.2 2.0)
  let no2 := if isIndia lat lon then
      (if isUrban lat lon then u 2 20 60 else u 2 10 30)
    else (if isUrban lat lon then u 2 15 40 else u 2 5 20)
  { pm25 := round1 pm25, pm10 := round1 pm10, no2 := round1 no2 }

/-- The embedded `_generate_mock_openaq_data` as a `SensorData` payload (source
"OpenAQ (Enhanced)", one synthetic station at distance 0, confidences
75/75/70; the station name string is not modelled). -/
def generateMockOpenaqData (srand : SeededRand) (lat lon : ℚ) : SensorData :=
  let v := mockOpenaqValues srand lat lon
  { source := "OpenAQ (Enhanced)"
    overall_aqi := none
    pollutants := []
    stations := [{ name := "Estimated Station"
                   distance_km := 0
                   measurements := [("pm25", some v.pm25), ("pm10", some v.pm10),
                     ("no2", some v.no2)] }]
    averaged_measurements := [("pm25", v.pm25, 75), ("pm10", v.pm10, 75),
      ("no2", v.no2, 70)] }

/-- The six pollutant values of `_generate_emergency_fallback_data`: base
levels are computed from the RAW coordinates (`abs(lat) + abs(lon)`), only
the uniform draws are seeded with the formatted coordinate tokens; station
and averaged entries draw independently (six draws in order). -/
structure EmergencyValues where
  stPm25 : ℚ
  stPm10 : ℚ
  stNo2 : ℚ
  avPm25 : ℚ
  avPm10 : ℚ
  avNo2 : ℚ
deriving DecidableEq

/-- Pollutant values of `DataFusionEngine._generate_emergency_fallback_data`. -/
def emergencyValues (srand : SeededRand) (lat lon : ℚ) : EmergencyValues :=
  let key := (fmt3 lat, fmt3 lon)
  let u := fun i a b => uniformFrom (srand key i) a b
  let pm25Base := 25 + qmod ((|lat| + |lon|) * 0.5) 40
  let pm10Base := pm25Base * 1.7
  let no2Base := 10 + qmod (|lat| * 0.3) 20
  { stPm25 := round1 (pm25Base + u 0 (-5) 5)
    stPm10 := round1 (pm10Base + u 1 (-8) 8)
    stNo2 := round1 (no2Base + u 2 (-3) 3)
    avPm25 := round1 (pm25Base + u 3 (-5) 5)
    avPm10 := round1 (pm10Base + u 4 (-8) 8)
    avNo2 := round1 (no2Base + u 5 (-3) 3) }

/-- The embedded `_generate_emergency_fallback_data` as a `SensorData` payload (source
"OpenAQ (Emergency Fallback)", confidences 50/50/45). -/
def generateEmergencyFallbackData (srand : SeededRand) (lat lon : ℚ) :
    SensorData :=
  let v := emergencyValues srand lat lon
  { source := "OpenAQ (Emergency Fallback)"
    overall_aqi := none
    pollutants := []
    stations := [{ name := "Emergency Fallback Station"
                   distance_km := 0
                   measurements := [("pm25", some v.stPm25), ("pm10", some v.stPm10),
                     ("no2", some v.stNo2)] }]
    averaged_measurements := [("pm25", v.avPm25, 50), ("pm10", v.avPm10, 50),
      ("no2", v.avNo2, 45)] }

/-- The embedded `TempoDataSource._generate_mock_tempo_data`: NO2 from the raw
coordinates, O3 from an unseeded `random.uniform(-5, 10)` draw. -/
def generateMockTempoData (urand : RandStream) (lat lon : ℚ) : SatData :=
  { pollutants :=
      [("no2", round2 (0.5 + qmod ((|lat| + |lon|) * 0.01) 2)),
       ("o3", round1 (35 + uniformFrom (urand 0) (-5) 10))] }

/-! ### Source adapters -/

/-- The embedded `TempoDataSource.get_satellite_data`: WITHOUT a NASA token the demo
path returns mock data immediately, for any coordinates; only with a token
configured does the North-America coverage check run and return `None`
outside `lat ∈ [18, 71], lon ∈ [-175, -40]`. -/
def getSatelliteData (tokenPresent : Bool) (urand : RandStream) (lat lon : ℚ) :
    Option SatData :=
  if !tokenPresent then some (generateMockTempoData urand lat lon)
  else if lat < 18 ∨ 71 < lat ∨ lon < -175 ∨ -40 < lon then none
  else some (generateMockTempoData urand lat lon)

/-- Outcome of one HTTP request: a raised exception, or a status code with
a parsed body. -/
inductive NetOutcome (α : Type) where
  | exc : NetOutcome α
  | resp : ℕ → α → NetOutcome α

/-- The embedded `OpenAQDataSource.get_ground_data`: success with nonempty results is
processed; an empty 200 triggers the broader-radius retry; a non-200 status
raises `NameError` on the unbound `measurements` variable, caught by the
blanket `except` which returns mock data; every path yields a payload. -/
def getGroundData (dist : DistanceFn) (srand : SeededRand)
    (first second : NetOutcome (List RawMeasurement)) (lat lon : ℚ) :
    Option SensorData :=
  match first with
  | .exc => some (generateMockOpenaqData srand lat lon)
  | .resp status ms =>
    if status = 200 ∧ ms ≠ [] then processOpenaqData dist ms lat lon
    else if status ≠ 200 then some (generateMockOpenaqData srand lat lon)
    else
      match second with
      | .exc => some (generateMockOpenaqData srand lat lon)
      | .resp s2 ms2 =>
        if s2 = 200 ∧ ms2 ≠ [] then processOpenaqData dist ms2 lat lon
        else some (generateMockOpenaqData srand lat lon)

/-- Raw AQICN payload: the optional precomputed `aqi` and the `iaqi` map. -/
structure AqicnRaw where
  aqi : Option ℚ
  iaqi : List (String × ℚ)
deriving DecidableEq

/-- The embedded `AQICNDataSource._process_aqicn_data`: pollutants are copied for the
fixed mapping list; `overall_aqi` is passed through unmodified. -/
def processAqicnData (raw : AqicnRaw) : SensorData :=
  { source := aqicnSource
    overall_aqi := raw.aqi
    pollutants := (["pm25", "pm10", "no2", "so2", "o3", "co"]).filterMap
      (fun code => (raw.iaqi.lookup code).map (fun v => (code, v)))
    stations := []
    averaged_measurements := [] }

/-- The embedded `AQICNDataSource.get_aqicn_data`: `None` without a WAQI key; otherwise
the three-request cascade either yields a station payload (`cascade`) or
`None`; this adapter never synthesizes. -/
def getAqicnData (keyPresent : Bool) (cascade : Option AqicnRaw) :
    Option SensorData :=
  if !keyPresent then none
  else cascade.map processAqicnData

/-- Raw OpenWeather response fields read by `_assess_weather_impact`. -/
structure WeatherRaw where
  wind_speed : ℚ
  humidity : ℚ
  condition : String

/-- The embedded `WeatherDataSource._assess_weather_impact`. -/
def assessWeatherImpact (raw : WeatherRaw) : String :=
  if 5 < raw.wind_speed then "good_dispersion"
  else if 1 < (raw.condition.toLower.splitOn "rain").length then "cleansing"
  else if 80 < raw.humidity then "poor_dispersion"
  else if raw.wind_speed < 2 then "stagnant"
  else "moderate"

/-- The embedded `WeatherDataSource._process_weather_data`, restricted to the fields the
fusion pipeline reads. -/
def processWeatherData (raw : WeatherRaw) : Weather :=
  { air_quality_impact := assessWeatherImpact raw
    wind_speed := raw.wind_speed }

/-- The embedded `WeatherDataSource._get_mock_weather_data`: fixed impact "moderate";
wind from `random.uniform(0, 15)` (only pipeline-read fields modelled). -/
def getMockWeatherData (urand : RandStream) : Weather :=
  { air_quality_impact := "moderate"
    wind_speed := round1 (uniformFrom (urand 0) 0 15) }

/-- The embedded `WeatherDataSource.get_weather_data`: mock data without a usable key,
on exception, or on a non-200 status; processed data on status 200 — it
never returns `None`. -/
def getWeatherData (keyUsable : Bool) (urand : RandStream)
    (outcome : NetOutcome WeatherRaw) : Option Weather :=
  if !keyUsable then some (getMockWeatherData urand)
  else match outcome with
    | .exc => some (getMockWeatherData urand)
    | .resp status raw =>
      if status = 200 then some (processWeatherData raw)
      else some (getMockWeatherData urand)

/-! ### Comprehensive pipeline (`get_comprehensive_air_quality`) -/

/-- One entry of `asyncio.gather(..., return_exceptions=True)`: either the
coroutine's returned optional payload or a raised exception. -/
inductive FetchOutcome (α : Type) where
  | exc : String → FetchOutcome α
  | val : Option α → FetchOutcome α

/-- Payload of a gather outcome (`None` for a raised exception). -/
def outcomeData {α : Type} : FetchOutcome α → Option α
  | .exc _ => none
  | .val d => d

/-- Error-map entries contributed by one gather outcome. -/
def outcomeErrors {α : Type} (name : String) : FetchOutcome α →
    List (String × String)
  | .exc msg => [(name, msg)]
  | .val _ => []

/-- The `not any([tempo_data, openaq_data, aqicn_data, weather_data])` test
guarding the emergency fallback. -/
def allSourcesAbsent (tempo : Option SatData) (openaq aqicnD : Option SensorData)
    (weather : Option Weather) : Bool :=
  !(tempo.isSome || openaq.isSome || aqicnD.isSome || weather.isSome)

/-- Result of `get_comprehensive_air_quality`: the fused data plus the
`data_source_errors` map. -/
structure ComprehensiveResult where
  fusion : FusionResult
  data_source_errors : List (String × String)

/-- The embedded `DataFusionEngine.get_comprehensive_air_quality`: unwrap the four
gather outcomes, record one error entry per raised exception, substitute
emergency ground synthesis when all four payloads are absent, then fuse. -/
def getComprehensiveAirQuality (rT : FetchOutcome SatData)
    (rO rA : FetchOutcome SensorData) (rW : FetchOutcome Weather)
    (lat lon : ℚ) (srand : SeededRand) (fallbackAqi : ℤ) (fallbackRand : ℚ) :
    ComprehensiveResult :=
  let tempo := outcomeData rT
  let openaq := outcomeData rO
  let aqicnD := outcomeData rA
  let weather := outcomeData rW
  let errors := outcomeErrors "tempo" rT ++ outcomeErrors "openaq" rO ++
    outcomeErrors "aqicn" rA ++ outcomeErrors "weather" rW
  let openaq2 := if allSourcesAbsent tempo openaq aqicnD weather
    then some (generateEmergencyFallbackData srand lat lon) else openaq
  { fusion := fuseDataSources tempo openaq2 aqicnD weather fallbackAqi fallbackRand
    data_source_errors := errors }

/-! ### Claim C5: weather adjustment -/

/-- Modelled from the spec's words, for comparison with the code: the
claimed `clamp(round(overall_index × factor), 0, 500)`. -/
def specWeatherAdjustedIndex (overall : ℚ) (impact : String) : ℤ :=
  min 500 (max 0 (pyRound (overall * dispersionFactor impact)))

theorem dispersionFactor_good : dispersionFactor "good_dispersion" = 0.9 := by
  unfold dispersionFactor
  rw [if_pos rfl]

theorem dispersionFactor_poor : dispersionFactor "poor_dispersion" = 1.1 := by
  unfold dispersionFactor
  rw [if_neg (by decide), if_pos (Or.inl rfl)]

theorem dispersionFactor_stagnant : dispersionFactor "stagnant" = 1.1 := by
  unfold dispersionFactor
  rw [if_neg (by decide), if_pos (Or.inr rfl)]

theorem dispersionFactor_cleansing : dispersionFactor "cleansing" = 0.8 := by
  unfold dispersionFactor
  rw [if_neg (by decide), if_neg (by decide), if_pos rfl]

/-- Claim C5 (counterexample): the code computes
`int(overall_aqi * adjustment_factor)` with truncation and without
clamping, so at `overall = 500` under stagnant weather it yields `550`
(the spec formula yields `500`), and at `overall = 91` under good
dispersion it yields `81` where rounding would give `82`. -/
theorem C5_counterexample :
    (applyWeatherCorrections
        { overall_aqi := 500, pollutants := [], primary_source := "ground_sensors",
          confidence := "high", satellite_enhancement := false,
          weather_adjusted_aqi := none, weather_impact := none }
        (some { air_quality_impact := "stagnant", wind_speed := 1 })).weather_adjusted_aqi
      = some 550 ∧
    specWeatherAdjustedIndex 500 "stagnant" = 500 ∧
    (applyWeatherCorrections
        { overall_aqi := 91, pollutants := [], primary_source := "ground_sensors",
          confidence := "high", satellite_enhancement := false,
          weather_adjusted_aqi := none, weather_impact := none }
        (some { air_quality_impact := "good_dispersion", wind_speed := 6 })).weather_adjusted_aqi
      = some 81 ∧
    specWeatherAdjustedIndex 91 "good_dispersion" = 82 ∧
    (550 : ℤ) ≠ 500 ∧ (81 : ℤ) ≠ 82 := by
  refine ⟨?_, ?_, ?_, ?_, by norm_num, by norm_num⟩
  · show some (truncQ (500 * dispersionFactor "stagnant")) = some 550
    rw [dispersionFactor_stagnant]
    norm_num [truncQ, Int.floor_eq_iff]
  · unfold specWeatherAdjustedIndex
    rw [dispersionFactor_stagnant]
    norm_num [pyRound, Int.floor_eq_iff]
  · show some (truncQ (91 * dispersionFactor "good_dispersion")) = some 81
    rw [dispersionFactor_good]
    norm_num [truncQ, Int.floor_eq_iff]
  · unfold specWeatherAdjustedIndex
    rw [dispersionFactor_good]
    norm_num [pyRound, Int.floor_eq_iff]

/-- Claim C5 (amended): whenever a weather reading is present, the pipeline
sets `weather_adjusted_aqi = int(overall_index × factor)` — truncation
toward zero, with no rounding to nearest and no clamping to [0, 500] —
where the factor is 0.9 for good_dispersion, 1.1 for poor_dispersion or
stagnant, 0.8 for cleansing, and 1.0 for any other impact value. -/
theorem C5_weather_adjustment (m : PrimaryMetrics) (w : Weather) :
    (applyWeatherCorrections m (some w)).weather_adjusted_aqi
        = some (truncQ (m.overall_aqi * dispersionFactor w.air_quality_impact)) ∧
    (applyWeatherCorrections m (some w)).weather_impact = some w.air_quality_impact ∧
    dispersionFactor "good_dispersion" = 0.9 ∧
    dispersionFactor "poor_dispersion" = 1.1 ∧
    dispersionFactor "stagnant" = 1.1 ∧
    dispersionFactor "cleansing" = 0.8 ∧
    (∀ s, s ≠ "good_dispersion" → s ≠ "poor_dispersion" → s ≠ "stagnant" →
      s ≠ "cleansing" → dispersionFactor s = 1.0) := by
  refine ⟨rfl, rfl, dispersionFactor_good, dispersionFactor_poor,
    dispersionFactor_stagnant, dispersionFactor_cleansing, ?_⟩
  intro s h1 h2 h3 h4
  unfold dispersionFactor
  rw [if_neg h1, if_neg (by simp [h2, h3]), if_neg h4]

/-- Claim C5 (witness): the amended statement applied at a concrete
metrics/weather pair and the default factor at impact "moderate". -/
theorem C5_witness :
    (applyWeatherCorrections
        { overall_aqi := 95, pollutants := [], primary_source := "ground_sensors",
          confidence := "high", satellite_enhancement := false,
          weather_adjusted_aqi := none, weather_impact := none }
        (some { air_quality_impact := "moderate", wind_speed := 3 })).weather_adjusted_aqi
      = some (truncQ (95 * dispersionFactor "moderate")) ∧
    dispersionFactor "moderate" = 1.0 :=
  ⟨(C5_weather_adjustment
      { overall_aqi := 95, pollutants := [], primary_source := "ground_sensors",
        confidence := "high", satellite_enhancement := false,
        weather_adjusted_aqi := none, weather_impact := none }
      { air_quality_impact := "moderate", wind_speed := 3 }).1,
   (C5_weather_adjustment
      { overall_aqi := 95, pollutants := [], primary_source := "ground_sensors",
        confidence := "high", satellite_enhancement := false,
        weather_adjusted_aqi := none, weather_impact := none }
      { air_quality_impact := "moderate", wind_speed := 3 }).2.2.2.2.2.2 "moderate"
      (by decide) (by decide) (by decide) (by decide)⟩

/-! ### Claim C4: satellite coverage box -/

/-- Claim C4 (counterexample): at lat=0, lon=0 — outside the satellite
coverage box — `get_satellite_data` does NOT return None when no NASA
token is configured: the demo path returns mock (synthesized) data before
the coverage check runs. -/
theorem C4_counterexample :
    ((0 : ℚ) < 18 ∨ 71 < (0 : ℚ) ∨ (0 : ℚ) < -175 ∨ -40 < (0 : ℚ)) ∧
    getSatelliteData false (fun _ => 1/2) 0 0 ≠ none := by
  constructor
  · left
    norm_num
  · simp [getSatelliteData]

/-- Claim C4 (amended): WITH the NASA token configured, every coordinate
outside the coverage box lat ∈ [18,71], lon ∈ [-175,-40] yields a `None`
satellite reading (never synthesized), the fused result's satellite flag is
false, and data_quality is "medium" even when ground and weather sources
succeed; without a token the fetch instead returns synthesized data for any
coordinates. -/
theorem C4_outside_coverage (urand : RandStream) (lat lon : ℚ)
    (h : lat < 18 ∨ 71 < lat ∨ lon < -175 ∨ -40 < lon)
    (g : SensorData) (w : Weather) (aq : Option SensorData) (fb : ℤ) (fr : ℚ) :
    getSatelliteData true urand lat lon = none ∧
    (fuseDataSources (getSatelliteData true urand lat lon) (some g) aq (some w)
        fb fr).satellite = false ∧
    (fuseDataSources (getSatelliteData true urand lat lon) (some g) aq (some w)
        fb fr).data_quality = "medium" := by
  have hn : getSatelliteData true urand lat lon = none := by
    unfold getSatelliteData
    rw [if_neg (by norm_num), if_pos h]
  refine ⟨hn, ?_, ?_⟩ <;> rw [hn] <;> simp [fuseDataSources]

/-- Claim C4 (witness): the amended theorem at lat=0, lon=0 with concrete
ground and weather payloads. -/
theorem C4_witness :
    getSatelliteData true (fun _ => 1/2) 0 0 = none ∧
    (fuseDataSources (getSatelliteData true (fun _ => 1/2) 0 0)
        (some { source := "OpenAQ", overall_aqi := none, pollutants := [],
                stations := [], averaged_measurements := [("pm25", 10, 75)] })
        none (some { air_quality_impact := "moderate", wind_speed := 3 })
        50 (1/2)).satellite = false ∧
    (fuseDataSources (getSatelliteData true (fun _ => 1/2) 0 0)
        (some { source := "OpenAQ", overall_aqi := none, pollutants := [],
                stations := [], averaged_measurements := [("pm25", 10, 75)] })
        none (some { air_quality_impact := "moderate", wind_speed := 3 })
        50 (1/2)).data_quality = "medium" :=
  C4_outside_coverage (fun _ => 1/2) 0 0 (Or.inl (by norm_num))
    { source := "OpenAQ", overall_aqi := none, pollutants := [],
      stations := [], averaged_measurements := [("pm25", 10, 75)] }
    { air_quality_impact := "moderate", wind_speed := 3 } none 50 (1/2)

/-! ### Claim C1: index ranges -/

theorem lookup_mem_q {l : List (String × ℚ × ℚ)} {k : String} {v : ℚ × ℚ}
    (h : l.lookup k = some v) : (k, v) ∈ l := by
  induction l with
  | nil => simp [List.lookup] at h
  | cons hd tl ih =>
    rcases hd with ⟨k0, v0⟩
    by_cases hk : k = k0
    · subst hk
      simp [List.lookup] at h
      subst h
      exact List.mem_cons_self _ _
    · have hbeq : (k == k0) = false := by
        simp [hk]
      simp only [List.lookup, hbeq] at h
      exact List.mem_cons_of_mem _ (ih h)

theorem foldl_max_bound {lb ub : ℚ} :
    ∀ (xs : List ℚ) (x : ℚ), lb ≤ x → x ≤ ub → (∀ y ∈ xs, lb ≤ y ∧ y ≤ ub) →
      lb ≤ xs.foldl max x ∧ xs.foldl max x ≤ ub
  | [], _, h1, h2, _ => ⟨h1, h2⟩
  | y :: ys, x, h1, h2, hall =>
    foldl_max_bound ys (max x y) (le_trans h1 (le_max_left _ _))
      (max_le h2 (hall y (List.mem_cons_self _ _)).2)
      (fun z hz => hall z (List.mem_cons_of_mem _ hz))

theorem truncQ_cast_range {x : ℚ} (h1 : 0 ≤ x) (h2 : x ≤ 500) :
    0 ≤ ((truncQ x : ℤ) : ℚ) ∧ ((truncQ x : ℤ) : ℚ) ≤ 500 := by
  constructor
  · exact_mod_cast truncQ_nonneg h1
  · have h3 : truncQ x ≤ (500 : ℤ) := truncQ_le_of_le h1 (by exact_mod_cast h2)
    exact_mod_cast h3

/-- Satellite enhancement changes neither the overall index nor the
weather adjustment nor the confidence label. -/
theorem enhance_preserves (m : PrimaryMetrics) (t : Option SatData) :
    (enhanceWithSatelliteData m t).overall_aqi = m.overall_aqi ∧
    (enhanceWithSatelliteData m t).weather_adjusted_aqi = m.weather_adjusted_aqi ∧
    (enhanceWithSatelliteData m t).confidence = m.confidence := by
  unfold enhanceWithSatelliteData
  rcases t with _ | t
  · exact ⟨rfl, rfl, rfl⟩
  · dsimp only
    split_ifs
    · exact ⟨rfl, rfl, rfl⟩
    · rcases h : t.pollutants.lookup "no2" with _ | col <;> simp [h]

/-- Weather correction does not change the overall index or confidence. -/
theorem applyWeather_preserves (m : PrimaryMetrics) (w : Option Weather) :
    (applyWeatherCorrections m w).overall_aqi = m.overall_aqi ∧
    (applyWeatherCorrections m w).confidence = m.confidence := by
  rcases w with _ | w <;> exact ⟨rfl, rfl⟩

/-- The embedded `_calculate_primary_aqi` leaves the weather adjustment slot empty. -/
theorem calculatePrimaryAqi_weatherAdj (fallbackAqi : ℤ) (fallbackRand : ℚ)
    (sensor : Option SensorData) :
    (calculatePrimaryAqi fallbackAqi fallbackRand sensor).weather_adjusted_aqi = none := by
  rcases sensor with _ | s
  · rfl
  · unfold calculatePrimaryAqi
    dsimp only
    split_ifs <;> rfl

/-- The adjustment factor is always positive and at most 1.1. -/
theorem dispersionFactor_range (s : String) :
    0 < dispersionFactor s ∧ dispersionFactor s ≤ 1.1 := by
  unfold dispersionFactor
  split_ifs <;> norm_num

/-- The overall index computed by `_calculate_primary_aqi` lies in [0, 500]
whenever the random fallback base does, any AQICN pass-through index does,
and the averaged measurement values are nonnegative. -/
theorem calculatePrimaryAqi_range (fallbackAqi : ℤ) (fallbackRand : ℚ)
    (sensor : Option SensorData)
    (hfb1 : 0 ≤ fallbackAqi) (hfb2 : fallbackAqi ≤ 500)
    (haqicn : ∀ s, sensor = some s → ∀ v, s.overall_aqi = some v → 0 ≤ v ∧ v ≤ 500)
    (hvals : ∀ s, sensor = some s →
      ∀ p v c, (p, v, c) ∈ s.averaged_measurements → 0 ≤ v) :
    0 ≤ (calculatePrimaryAqi fallbackAqi fallbackRand sensor).overall_aqi ∧
      (calculatePrimaryAqi fallbackAqi fallbackRand sensor).overall_aqi ≤ 500 := by
  rcases sensor with _ | s
  · unfold calculatePrimaryAqi generateFallbackAqi
    dsimp only
    constructor
    · exact_mod_cast hfb1
    · exact_mod_cast hfb2
  · unfold calculatePrimaryAqi
    dsimp only
    by_cases h1 : s.source = aqicnSource ∧ aqiTruthy s.overall_aqi = true
    · rw [if_pos h1]
      rcases ho : s.overall_aqi with _ | v
      · rw [ho] at h1
        simp [aqiTruthy] at h1
      · exact haqicn s rfl v ho
    · rw [if_neg h1]
      by_cases h2 : s.averaged_measurements = []
      · rw [if_pos h2]
        unfold generateFallbackAqi
        dsimp only
        constructor
        · exact_mod_cast hfb1
        · exact_mod_cast hfb2
      · rw [if_neg h2]
        dsimp only
        rcases hp : s.averaged_measurements.lookup "pm25" with _ | vp <;>
        rcases ho3 : s.averaged_measurements.lookup "o3" with _ | vo <;>
        rcases hn2 : s.averaged_measurements.lookup "no2" with _ | vn <;>
        simp only [hp, ho3, hn2, Option.map_none', Option.map_some',
          Option.toList_none, Option.toList_some, List.map_nil, List.map_cons,
          List.nil_append, List.append_nil, List.cons_append, pyMax,
          List.foldl_nil, List.foldl_cons, Option.getD_some, Option.getD_none]
        · exact truncQ_cast_range (by norm_num) (by norm_num)
        · have hb := no2_range (hvals s rfl "no2" vn.1 vn.2 (lookup_mem_q hn2))
          exact truncQ_cast_range hb.1 hb.2
        · have hb := o3_range (hvals s rfl "o3" vo.1 vo.2 (lookup_mem_q ho3))
          exact truncQ_cast_range hb.1 hb.2
        · have hb1 := o3_range (hvals s rfl "o3" vo.1 vo.2 (lookup_mem_q ho3))
          have hb2 := no2_range (hvals s rfl "no2" vn.1 vn.2 (lookup_mem_q hn2))
          exact truncQ_cast_range (le_trans hb1.1 (le_max_left _ _))
            (max_le hb1.2 hb2.2)
        · have hb := pm25_range vp.1
          exact truncQ_cast_range hb.1 hb.2
        · have hb1 := pm25_range vp.1
          have hb2 := no2_range (hvals s rfl "no2" vn.1 vn.2 (lookup_mem_q hn2))
          exact truncQ_cast_range (le_trans hb1.1 (le_max_left _ _))
            (max_le hb1.2 hb2.2)
        · have hb1 := pm25_range vp.1
          have hb2 := o3_range (hvals s rfl "o3" vo.1 vo.2 (lookup_mem_q ho3))
          exact truncQ_cast_range (le_trans hb1.1 (le_max_left _ _))
            (max_le hb1.2 hb2.2)
        · have hb1 := pm25_range vp.1
          have hb2 := o3_range (hvals s rfl "o3" vo.1 vo.2 (lookup_mem_q ho3))
          have hb3 := no2_range (hvals s rfl "no2" vn.1 vn.2 (lookup_mem_q hn2))
          exact truncQ_cast_range
            (le_trans hb1.1 (le_trans (le_max_left _ _) (le_max_left _ _)))
            (max_le (max_le hb1.2 hb2.2) hb3.2)

/-- Claim C1 (counterexample): with a ground reading whose averaged PM2.5
is 500 μg/m³ (index 500) and stagnant weather, the fused
`weather_adjusted_aqi` is `int(500 * 1.1) = 550 ∉ [0, 500]`: the code
applies no clamp after the weather factor. -/
theorem C1_counterexample :
    (fuseDataSources none
        (some { source := "OpenAQ", overall_aqi := none, pollutants := [],
                stations := [], averaged_measurements := [("pm25", 500, 75)] })
        none (some { air_quality_impact := "stagnant", wind_speed := 1 })
        50 (1/2)).metrics.weather_adjusted_aqi = some 550 ∧
    ¬ ((550 : ℤ) ≤ 500) := by
  refine ⟨?_, by norm_num⟩
  have hpm : pm25_to_aqi 500 = 500 := by
    rw [pm25_eval_band
      (show ((250.5 : ℚ), (500.4 : ℚ), (301 : ℚ), (500 : ℚ)) ∈ pm25Breakpoints by
        simp [pm25Breakpoints])
      (by norm_num) (by norm_num)]
    norm_num [linAqi, pyRound, Int.floor_eq_iff]
  have hprim : calculatePrimaryAqi 50 (1/2)
      (some { source := "OpenAQ", overall_aqi := none, pollutants := [],
              stations := [], averaged_measurements := [("pm25", 500, 75)] }) =
      { overall_aqi := 500, pollutants := [("pm25", 500)],
        primary_source := "ground_sensors", confidence := "medium",
        satellite_enhancement := false, weather_adjusted_aqi := none,
        weather_impact := none } := by
    unfold calculatePrimaryAqi
    dsimp only
    rw [if_neg (by simp [aqiTruthy]), if_neg (by simp)]
    have l1 : List.lookup "pm25" [("pm25", (500 : ℚ), (75 : ℚ))] = some (500, 75) := rfl
    have l2 : List.lookup "o3" [("pm25", (500 : ℚ), (75 : ℚ))] = none := rfl
    have l3 : List.lookup "no2" [("pm25", (500 : ℚ), (75 : ℚ))] = none := rfl
    simp only [l1, l2, l3, Option.map_some', Option.map_none', Option.toList_some,
      Option.toList_none, List.map_nil, List.map_cons, List.nil_append,
      List.append_nil, pyMax, List.foldl_nil, Option.getD_some, hpm]
    norm_num [truncQ, Int.floor_eq_iff]
  unfold fuseDataSources selectGround
  dsimp only
  rw [hprim]
  show some (truncQ (500 * dispersionFactor "stagnant")) = some 550
  rw [dispersionFactor_stagnant]
  norm_num [truncQ, Int.floor_eq_iff]

/-- Claim C1 (amended): the fused `overall_aqi` lies in [0, 500] whenever
the random fallback base does (the code draws it from [25, 150]), any AQICN
pass-through index does, and the selected ground reading's averaged
concentrations are nonnegative; `weather_adjusted_aqi`, however, is only
guaranteed to lie in [0, 550]: it equals `int(overall × factor)` with
factor up to 1.1 and no clamping, so it can exceed 500. -/
theorem C1_index_ranges (tempo : Option SatData) (openaq aqicnD : Option SensorData)
    (weather : Option Weather) (fb : ℤ) (fr : ℚ)
    (hfb1 : 0 ≤ fb) (hfb2 : fb ≤ 500)
    (hsel : ∀ s, (aqicnD = some s ∨ (aqicnD = none ∧ openaq = some s)) →
      (∀ v, s.overall_aqi = some v → 0 ≤ v ∧ v ≤ 500) ∧
      (∀ p v c, (p, v, c) ∈ s.averaged_measurements → 0 ≤ v)) :
    (0 ≤ (fuseDataSources tempo openaq aqicnD weather fb fr).metrics.overall_aqi ∧
      (fuseDataSources tempo openaq aqicnD weather fb fr).metrics.overall_aqi ≤ 500) ∧
    (∀ a, (fuseDataSources tempo openaq aqicnD weather fb fr).metrics.weather_adjusted_aqi
        = some a → 0 ≤ a ∧ a ≤ 550) := by
  have hseldata : ∀ s, selectGround aqicnD openaq = some s →
      (∀ v, s.overall_aqi = some v → 0 ≤ v ∧ v ≤ 500) ∧
      (∀ p v c, (p, v, c) ∈ s.averaged_measurements → 0 ≤ v) := by
    intro s hs
    unfold selectGround at hs
    rcases aqicnD with _ | a
    · exact hsel s (Or.inr ⟨rfl, hs⟩)
    · cases hs
      exact hsel s (Or.inl rfl)
  have hprim := calculatePrimaryAqi_range fb fr (selectGround aqicnD openaq)
    hfb1 hfb2
    (fun s hs v hv => (hseldata s hs).1 v hv)
    (fun s hs p v c hm => (hseldata s hs).2 p v c hm)
  have hover :
      (fuseDataSources tempo openaq aqicnD weather fb fr).metrics.overall_aqi =
      (calculatePrimaryAqi fb fr (selectGround aqicnD openaq)).overall_aqi := by
    unfold fuseDataSources
    dsimp only
    rw [(applyWeather_preserves _ _).1, (enhance_preserves _ _).1]
  constructor
  · rw [hover]
    exact hprim
  · intro a ha
    have hmet :
        (fuseDataSources tempo openaq aqicnD weather fb fr).metrics =
        applyWeatherCorrections (enhanceWithSatelliteData
          (calculatePrimaryAqi fb fr (selectGround aqicnD openaq)) tempo)
          weather := rfl
    rcases weather with _ | w
    · rw [hmet] at ha
      unfold applyWeatherCorrections at ha
      rw [(enhance_preserves _ _).2.1, calculatePrimaryAqi_weatherAdj] at ha
      cases ha
    · rw [hmet] at ha
      unfold applyWeatherCorrections at ha
      dsimp only at ha
      rw [(enhance_preserves _ _).1] at ha
      have ha2 : a = truncQ
          ((calculatePrimaryAqi fb fr (selectGround aqicnD openaq)).overall_aqi *
            dispersionFactor w.air_quality_impact) :=
        (Option.some.injEq _ _).mp ha.symm
      have hf := dispersionFactor_range w.air_quality_impact
      have hx1 : 0 ≤ (calculatePrimaryAqi fb fr (selectGround aqicnD openaq)).overall_aqi *
          dispersionFactor w.air_quality_impact :=
        mul_nonneg hprim.1 (le_of_lt hf.1)
      have hx2 : (calculatePrimaryAqi fb fr (selectGround aqicnD openaq)).overall_aqi *
          dispersionFactor w.air_quality_impact ≤ 550 := by
        calc (calculatePrimaryAqi fb fr (selectGround aqicnD openaq)).overall_aqi *
            dispersionFactor w.air_quality_impact ≤ (500 : ℚ) * 1.1 :=
              mul_le_mul hprim.2 hf.2 (le_of_lt hf.1) (by norm_num)
          _ = 550 := by norm_num
      rw [ha2]
      exact ⟨truncQ_nonneg hx1, truncQ_le_of_le hx1 (by exact_mod_cast hx2)⟩

/-- Claim C1 (witness): the amended range theorem at a concrete input. -/
theorem C1_witness :
    0 ≤ (fuseDataSources none
        (some { source := "OpenAQ", overall_aqi := none, pollutants := [],
                stations := [], averaged_measurements := [("pm25", 10, 75)] })
        none (some { air_quality_impact := "moderate", wind_speed := 3 })
        50 (1/2)).metrics.overall_aqi ∧
    (fuseDataSources none
        (some { source := "OpenAQ", overall_aqi := none, pollutants := [],
                stations := [], averaged_measurements := [("pm25", 10, 75)] })
        none (some { air_quality_impact := "moderate", wind_speed := 3 })
        50 (1/2)).metrics.overall_aqi ≤ 500 :=
  (C1_index_ranges none
    (some { source := "OpenAQ", overall_aqi := none, pollutants := [],
            stations := [], averaged_measurements := [("pm25", 10, 75)] })
    none (some { air_quality_impact := "moderate", wind_speed := 3 })
    50 (1/2) (by norm_num) (by norm_num)
    (by
      intro s hs
      rcases hs with hs | ⟨_, hs⟩
      · cases hs
      · cases hs
        constructor
        · intro v hv
          cases hv
        · intro p v c hm
          simp only [List.mem_cons, List.not_mem_nil, or_false, Prod.mk.injEq] at hm
          rcases hm with ⟨_, h2, _⟩
          rw [h2]
          norm_num)).1

/-! ### Claim C6: primary index selection -/

/-- Modelled from the spec's words, for comparison with the code: the
indices converted from whichever of pm25, o3, no2 are present in the
averaged measurements. -/
def specConvertedIndices (s : SensorData) : List ℚ :=
  (s.averaged_measurements.lookup "pm25").toList.map (fun pr => pm25_to_aqi pr.1) ++
  (s.averaged_measurements.lookup "o3").toList.map (fun pr => o3_to_aqi pr.1) ++
  (s.averaged_measurements.lookup "no2").toList.map (fun pr => no2_to_aqi pr.1)

theorem optMap_snd (o : Option (ℚ × ℚ)) (f : ℚ → ℚ) :
    (Option.map (fun pr => (pr.1, f pr.1)) o).toList.map Prod.snd =
      o.toList.map (fun pr => f pr.1) := by
  cases o <;> rfl

/-- Claim C6 (counterexample): an AQICN reading with the pre-computed
overall index 0 is present, yet the pipeline does not use it with
confidence "high": `if overall_aqi:` treats 0 as falsy, and the AQICN
payload has no averaged measurements, so the random fallback runs
(confidence "low", random overall).  Also, with only an averaged o3 of
54.5, the overall index is 49 = int(49.3666...), not the maximum converted
index 1481/30 itself. -/
theorem C6_counterexample :
    ((calculatePrimaryAqi 100 (1/2)
        (some { source := "AQICN (World Air Quality Index)", overall_aqi := some 0,
                pollutants := [], stations := [], averaged_measurements := [] })).confidence
      = "low" ∧
     (calculatePrimaryAqi 100 (1/2)
        (some { source := "AQICN (World Air Quality Index)", overall_aqi := some 0,
                pollutants := [], stations := [], averaged_measurements := [] })).overall_aqi
      = 100 ∧ ("low" : String) ≠ "high") ∧
    ((calculatePrimaryAqi 100 (1/2)
        (some { source := "OpenAQ", overall_aqi := none, pollutants := [],
                stations := [], averaged_measurements := [("o3", 54.5, 70)] })).overall_aqi
      = 49 ∧ o3_to_aqi 54.5 = 1481/30 ∧ ((49 : ℚ) ≠ 1481/30)) := by
  have ho3 : o3_to_aqi 54.5 = 1481/30 := by
    unfold o3_to_aqi
    rw [if_neg (by norm_num), if_pos (by norm_num)]
    norm_num
  refine ⟨⟨?_, ?_, by decide⟩, ⟨?_, ho3, by norm_num⟩⟩
  · unfold calculatePrimaryAqi
    dsimp only
    rw [if_neg (by simp [aqiTruthy]), if_pos rfl]
    rfl
  · unfold calculatePrimaryAqi
    dsimp only
    rw [if_neg (by simp [aqiTruthy]), if_pos rfl]
    rfl
  · unfold calculatePrimaryAqi
    dsimp only
    rw [if_neg (by simp [aqicnSource]), if_neg (by simp)]
    have l1 : List.lookup "pm25" [("o3", (54.5 : ℚ), (70 : ℚ))] = none := rfl
    have l2 : List.lookup "o3" [("o3", (54.5 : ℚ), (70 : ℚ))] = some (54.5, 70) := rfl
    have l3 : List.lookup "no2" [("o3", (54.5 : ℚ), (70 : ℚ))] = none := rfl
    simp only [l1, l2, l3, Option.map_some', Option.map_none', Option.toList_some,
      Option.toList_none, List.map_nil, List.map_cons, List.nil_append,
      List.append_nil, pyMax, List.foldl_nil, Option.getD_some, ho3]
    norm_num [truncQ, Int.floor_eq_iff]

/-- Claim C6 (amended): if an AQICN reading with a NONZERO pre-computed
overall index is present, the pipeline uses that index as the overall index
with confidence "high" (a present index of 0 is falsy in Python and drops
through to the random fallback path instead); otherwise, with nonempty
averaged measurements, the overall index is the integer truncation of the
maximum of the indices converted from whichever of pm25, o3, no2 are
present (default 50 when none is convertible), and confidence is "high"
exactly when at least two pollutants contributed, else "medium". -/
theorem C6_primary_aqi (fb : ℤ) (fr : ℚ) (s : SensorData) :
    (∀ v, s.source = aqicnSource → s.overall_aqi = some v → v ≠ 0 →
      calculatePrimaryAqi fb fr (some s) =
        { overall_aqi := v, pollutants := s.pollutants, primary_source := "aqicn",
          confidence := "high", satellite_enhancement := false,
          weather_adjusted_aqi := none, weather_impact := none }) ∧
    (¬ (s.source = aqicnSource ∧ aqiTruthy s.overall_aqi = true) →
      s.averaged_measurements ≠ [] →
      (calculatePrimaryAqi fb fr (some s)).overall_aqi =
        ((truncQ ((pyMax (specConvertedIndices s)).getD 50) : ℤ) : ℚ) ∧
      (calculatePrimaryAqi fb fr (some s)).primary_source = "ground_sensors" ∧
      (calculatePrimaryAqi fb fr (some s)).confidence =
        (if 2 ≤ (specConvertedIndices s).length then "high" else "medium")) := by
  constructor
  · intro v hsrc hv hne
    unfold calculatePrimaryAqi
    dsimp only
    rw [if_pos ⟨hsrc, by rw [hv]; simp [aqiTruthy, hne]⟩]
    simp [hv]
  · intro h1 h2
    unfold calculatePrimaryAqi
    dsimp only
    rw [if_neg h1, if_neg h2]
    unfold specConvertedIndices
    refine ⟨?_, rfl, ?_⟩
    · dsimp only
      rw [optMap_snd, optMap_snd, optMap_snd]
    · dsimp only
      rw [optMap_snd, optMap_snd, optMap_snd]

/-- Claim C6 (witness): the amended theorem applied to a concrete AQICN
reading with nonzero index and to a concrete OpenAQ reading. -/
theorem C6_witness :
    calculatePrimaryAqi 50 (1/2)
      (some { source := "AQICN (World Air Quality Index)", overall_aqi := some 42,
              pollutants := [("pm25", 42)], stations := [],
              averaged_measurements := [] }) =
      { overall_aqi := 42, pollutants := [("pm25", 42)], primary_source := "aqicn",
        confidence := "high", satellite_enhancement := false,
        weather_adjusted_aqi := none, weather_impact := none } ∧
    (calculatePrimaryAqi 50 (1/2)
      (some { source := "OpenAQ", overall_aqi := none, pollutants := [],
              stations := [], averaged_measurements := [("pm25", 10, 75)] })).primary_source
      = "ground_sensors" :=
  ⟨(C6_primary_aqi 50 (1/2)
      { source := "AQICN (World Air Quality Index)", overall_aqi := some 42,
        pollutants := [("pm25", 42)], stations := [],
        averaged_measurements := [] }).1 42 rfl rfl (by norm_num),
   ((C6_primary_aqi 50 (1/2)
      { source := "OpenAQ", overall_aqi := none, pollutants := [],
        stations := [], averaged_measurements := [("pm25", 10, 75)] }).2
      (by simp [aqicnSource]) (by simp)).2.1⟩

/-! ### Claim C3: all sources failing -/

theorem emergency_lookups (srand : SeededRand) (lat lon : ℚ) :
    ((generateEmergencyFallbackData srand lat lon).averaged_measurements.lookup "pm25" =
      some ((emergencyValues srand lat lon).avPm25, 50)) ∧
    ((generateEmergencyFallbackData srand lat lon).averaged_measurements.lookup "o3" =
      none) ∧
    ((generateEmergencyFallbackData srand lat lon).averaged_measurements.lookup "no2" =
      some ((emergencyValues srand lat lon).avNo2, 45)) :=
  ⟨rfl, rfl, rfl⟩

/-- The emergency payload always carries convertible pm25 and no2 entries,
so `_calculate_primary_aqi` counts two pollutants and reports "high". -/
theorem emergency_confidence (srand : SeededRand) (lat lon : ℚ) (fb : ℤ) (fr : ℚ) :
    (calculatePrimaryAqi fb fr
        (some (generateEmergencyFallbackData srand lat lon))).confidence = "high" ∧
    (calculatePrimaryAqi fb fr
        (some (generateEmergencyFallbackData srand lat lon))).primary_source =
      "ground_sensors" := by
  unfold calculatePrimaryAqi
  dsimp only
  rw [if_neg (by simp [generateEmergencyFallbackData, aqicnSource, aqiTruthy]),
    if_neg (by simp [generateEmergencyFallbackData])]
  rcases emergency_lookups srand lat lon with ⟨l1, l2, l3⟩
  refine ⟨?_, rfl⟩
  dsimp only
  rw [l1, l2, l3]
  simp only [Option.map_some', Option.map_none', Option.toList_some,
    Option.toList_none, List.map_nil, List.map_cons, List.nil_append,
    List.append_nil, List.cons_append, List.length_cons, List.length_nil]
  norm_num

/-- Claim C3 (counterexample): with all four adapters forced to fail, the
result is still produced via emergency synthesis and `errors` has four
entries, but the confidence label is "high", not "low": the emergency
payload always provides two convertible pollutants. -/
theorem C3_counterexample :
    (getComprehensiveAirQuality (.exc "t") (.exc "o") (.exc "a") (.exc "w")
        0 0 (fun _ _ => 1/2) 77 (1/2)).fusion.metrics.confidence = "high" ∧
    (getComprehensiveAirQuality (.exc "t") (.exc "o") (.exc "a") (.exc "w")
        0 0 (fun _ _ => 1/2) 77 (1/2)).data_source_errors.length = 4 ∧
    ("high" : String) ≠ "low" := by
  refine ⟨?_, rfl, by decide⟩
  have hmet : (getComprehensiveAirQuality (.exc "t") (.exc "o") (.exc "a") (.exc "w")
      0 0 (fun _ _ => 1/2) 77 (1/2)).fusion.metrics =
      calculatePrimaryAqi 77 (1/2)
        (some (generateEmergencyFallbackData (fun _ _ => 1/2) 0 0)) := rfl
  rw [hmet]
  exact (emergency_confidence (fun _ _ => 1/2) 0 0 77 (1/2)).1

/-- Claim C3 (amended): when all four gather outcomes are exceptions, the
pipeline still returns a result through emergency ground synthesis, the
errors map has exactly four entries (one per source), the primary source is
"ground_sensors" from the emergency payload — but the confidence label is
"high" (two convertible pollutants), not "low" ("low" only arises on the
unreachable no-averaged-measurements fallback). -/
theorem C3_all_failed (m1 m2 m3 m4 : String) (lat lon : ℚ)
    (srand : SeededRand) (fb : ℤ) (fr : ℚ) :
    (getComprehensiveAirQuality (.exc m1) (.exc m2) (.exc m3) (.exc m4)
        lat lon srand fb fr).data_source_errors =
      [("tempo", m1), ("openaq", m2), ("aqicn", m3), ("weather", m4)] ∧
    (getComprehensiveAirQuality (.exc m1) (.exc m2) (.exc m3) (.exc m4)
        lat lon srand fb fr).data_source_errors.length = 4 ∧
    (getComprehensiveAirQuality (.exc m1) (.exc m2) (.exc m3) (.exc m4)
        lat lon srand fb fr).fusion.metrics.confidence = "high" ∧
    (getComprehensiveAirQuality (.exc m1) (.exc m2) (.exc m3) (.exc m4)
        lat lon srand fb fr).fusion.metrics.primary_source = "ground_sensors" := by
  have hmet : (getComprehensiveAirQuality (.exc m1) (.exc m2) (.exc m3) (.exc m4)
      lat lon srand fb fr).fusion.metrics =
      calculatePrimaryAqi fb fr
        (some (generateEmergencyFallbackData srand lat lon)) := rfl
  refine ⟨rfl, rfl, ?_, ?_⟩
  · rw [hmet]
    exact (emergency_confidence srand lat lon fb fr).1
  · rw [hmet]
    exact (emergency_confidence srand lat lon fb fr).2

/-! ### Claim C8: distance-weighted averaging -/

/-- Inverse-distance weight of one station. -/
def stationWeight (st : Station) : ℚ := 1 / (st.distance_km + 1)

/-- Modelled from the spec's words: `Σ(value·weight)` over stations
reporting the pollutant. -/
def specValueSum (stations : List Station) (p : String) : ℚ :=
  (stations.map (fun st =>
    match st.measurements.lookup p with
    | some (some v) => v * stationWeight st
    | _ => 0)).sum

/-- Modelled from the spec's words: `Σ(weight)` over stations reporting the
pollutant. -/
def specWeightSum (stations : List Station) (p : String) : ℚ :=
  (stations.map (fun st =>
    match st.measurements.lookup p with
    | some (some _) => stationWeight st
    | _ => 0)).sum

theorem sumsFor_foldl (p : String) :
    ∀ (stations : List Station) (acc : ℚ × ℚ),
      stations.foldl
        (fun acc st =>
          match st.measurements.lookup p with
          | some (some v) =>
            (acc.1 + v * (1 / (st.distance_km + 1)), acc.2 + 1 / (st.distance_km + 1))
          | _ => acc)
        acc =
      (acc.1 + specValueSum stations p, acc.2 + specWeightSum stations p)
  | [], acc => by
    simp [specValueSum, specWeightSum]
  | st :: rest, acc => by
    simp only [List.foldl_cons, specValueSum, specWeightSum, List.map_cons,
      List.sum_cons]
    rcases h : st.measurements.lookup p with _ | w
    · rw [sumsFor_foldl p rest acc]
      simp only [specValueSum, specWeightSum, Prod.mk.injEq]
      exact ⟨by ring, by ring⟩
    · rcases w with _ | v
      · rw [sumsFor_foldl p rest acc]
        simp only [specValueSum, specWeightSum, Prod.mk.injEq]
        exact ⟨by ring, by ring⟩
      · rw [sumsFor_foldl p rest
          (acc.1 + v * (1 / (st.distance_km + 1)), acc.2 + 1 / (st.distance_km + 1))]
        simp only [specValueSum, specWeightSum, stationWeight, Prod.mk.injEq]
        exact ⟨by ring, by ring⟩

/-- The running-total fold of `_calculate_weighted_average` computes the
spec's two sums. -/
theorem sumsFor_eq (stations : List Station) (p : String) :
    sumsFor stations p = (specValueSum stations p, specWeightSum stations p) := by
  unfold sumsFor
  rw [sumsFor_foldl p stations (0, 0)]
  simp

theorem lookup_mem_opt {β : Type} {l : List (String × β)} {k : String} {v : β}
    (h : l.lookup k = some v) : (k, v) ∈ l := by
  induction l with
  | nil => simp [List.lookup] at h
  | cons hd tl ih =>
    rcases hd with ⟨k0, v0⟩
    by_cases hk : k = k0
    · subst hk
      simp [List.lookup] at h
      subst h
      exact List.mem_cons_self _ _
    · have hbeq : (k == k0) = false := by
        simp [hk]
      simp only [List.lookup, hbeq] at h
      exact List.mem_cons_of_mem _ (ih h)

/-- One step of key collection preserves previously collected keys. -/
theorem addKey_subset (ks : List String) (x : String) :
    ks ⊆ (if ks.contains x then ks else ks ++ [x]) := by
  split_ifs
  · exact fun a ha => ha
  · exact fun a ha => List.mem_append_left _ ha

/-- One step of key collection adds the new key. -/
theorem addKey_mem (ks : List String) (x : String) :
    x ∈ (if ks.contains x then ks else ks ++ [x]) := by
  split_ifs with hc
  · simpa using hc
  · exact List.mem_append_right _ (List.mem_singleton_self x)

/-- Keys already collected survive merging one station's measurement keys. -/
theorem addStationKeys_subset (ks : List String) (ms : List (String × Option ℚ)) :
    ks ⊆ ms.foldl
      (fun ks2 pm => if ks2.contains pm.1 then ks2 else ks2 ++ [pm.1]) ks := by
  induction ms generalizing ks with
  | nil => exact fun a ha => ha
  | cons pm rest ih =>
    intro a ha
    exact ih _ (addKey_subset ks pm.1 ha)

/-- A key occurring in a station's measurement list gets collected. -/
theorem addStationKeys_mem (ms : List (String × Option ℚ)) (ks : List String)
    {p : String} {w : Option ℚ} (hm : (p, w) ∈ ms) :
    p ∈ ms.foldl
      (fun ks2 pm => if ks2.contains pm.1 then ks2 else ks2 ++ [pm.1]) ks := by
  induction ms generalizing ks with
  | nil => cases hm
  | cons pm rest ih =>
    simp only [List.foldl_cons]
    rcases List.mem_cons.mp hm with heq | htl
    · have h2 : p ∈ (if ks.contains pm.1 then ks else ks ++ [pm.1]) := by
        have h1 : p = pm.1 := by rw [← heq]
        rw [h1]
        exact addKey_mem ks pm.1
      exact addStationKeys_subset _ rest h2
    · exact ih _ htl

theorem stationsKeys_subset (stations : List Station) (ks : List String) :
    ks ⊆ stations.foldl
      (fun ks1 st => st.measurements.foldl
        (fun ks2 pm => if ks2.contains pm.1 then ks2 else ks2 ++ [pm.1]) ks1) ks := by
  induction stations generalizing ks with
  | nil => exact fun a ha => ha
  | cons st rest ih =>
    intro a ha
    exact ih _ (addStationKeys_subset ks st.measurements ha)

theorem stationsKeys_mem (stations : List Station) (ks : List String)
    {st0 : Station} {p : String} {w : Option ℚ}
    (hst : st0 ∈ stations) (hm : (p, w) ∈ st0.measurements) :
    p ∈ stations.foldl
      (fun ks1 st => st.measurements.foldl
        (fun ks2 pm => if ks2.contains pm.1 then ks2 else ks2 ++ [pm.1]) ks1) ks := by
  induction stations generalizing ks with
  | nil => cases hst
  | cons s rest ih =>
    simp only [List.foldl_cons]
    rcases List.mem_cons.mp hst with heq | htl
    · subst heq
      exact stationsKeys_subset rest _ (addStationKeys_mem st0.measurements ks hm)
    · exact ih _ htl

/-- Every pollutant key listed by a fetched station appears in the
dictionary key order `paramKeys`. -/
theorem paramKeys_mem {stations : List Station} {st0 : Station} {p : String}
    {w : Option ℚ} (hst : st0 ∈ stations) (hm : (p, w) ∈ st0.measurements) :
    p ∈ paramKeys stations := by
  unfold paramKeys
  exact stationsKeys_mem stations [] hst hm

theorem list_sum_pos_of_mem {α : Type} (f : α → ℚ) :
    ∀ (l : List α) (x : α), x ∈ l → 0 < f x → (∀ y ∈ l, 0 ≤ f y) →
      0 < (l.map f).sum
  | [], x, hx, _, _ => absurd hx (List.not_mem_nil _)
  | a :: rest, x, hx, hpos, hall => by
    simp only [List.map_cons, List.sum_cons]
    rcases List.mem_cons.mp hx with heq | htl
    · subst heq
      have hn : 0 ≤ (rest.map f).sum := List.sum_nonneg (by
        intro y hy
        simp only [List.mem_map] at hy
        rcases hy with ⟨z, hz, rfl⟩
        exact hall z (List.mem_cons_of_mem _ hz))
      linarith
    · have h1 : 0 ≤ f a := hall a (List.mem_cons_self _ _)
      have h2 := list_sum_pos_of_mem f rest x htl hpos
        (fun y hy => hall y (List.mem_cons_of_mem _ hy))
      linarith

/-- With nonnegative distances, a station reporting the pollutant makes the
accumulated weight strictly positive. -/
theorem weightSum_pos {stations : List Station} {p : String} {st0 : Station}
    {v : ℚ} (hd : ∀ st ∈ stations, 0 ≤ st.distance_km)
    (hst : st0 ∈ stations) (hobs : st0.measurements.lookup p = some (some v)) :
    0 < specWeightSum stations p := by
  unfold specWeightSum
  refine list_sum_pos_of_mem _ stations st0 hst ?_ ?_
  · simp only [hobs]
    unfold stationWeight
    have := hd st0 hst
    exact one_div_pos.mpr (by linarith)
  · intro y hy
    rcases hl : y.measurements.lookup p with _ | wv
    · simp [hl]
    · rcases wv with _ | v2
      · simp [hl]
      · simp only [hl]
        unfold stationWeight
        have := hd y hy
        exact le_of_lt (one_div_pos.mpr (by linarith))

/-- Claim C8 (counterexample): two stations at distance 0 reporting 1 and
2.001 yield the averaged value 1.5 — `round(mean, 2)` — not the exact
arithmetic mean 1.5005. -/
theorem C8_counterexample :
    calculateWeightedAverage
        [{ name := "s1", distance_km := 0, measurements := [("pm25", some 1)] },
         { name := "s2", distance_km := 0, measurements := [("pm25", some 2.001)] }] =
      [("pm25", 1.5, 20)] ∧
    ((1 + 2.001) / 2 : ℚ) = 1.5005 ∧ ((1.5 : ℚ) ≠ 1.5005) := by
  refine ⟨?_, by norm_num, by norm_num⟩
  have hkeys : paramKeys
      [{ name := "s1", distance_km := 0, measurements := [("pm25", some 1)] },
       { name := "s2", distance_km := 0, measurements := [("pm25", some 2.001)] }] =
      ["pm25"] := rfl
  unfold calculateWeightedAverage
  rw [hkeys]
  have hsum : sumsFor
      [{ name := "s1", distance_km := 0, measurements := [("pm25", some 1)] },
       { name := "s2", distance_km := 0, measurements := [("pm25", some 2.001)] }]
      "pm25" = (3.001, 2) := by
    unfold sumsFor
    norm_num [List.foldl, List.lookup]
  simp only [List.filterMap_cons, List.filterMap_nil, hsum]
  norm_num [round2, pyRound, Int.floor_eq_iff]

/-- Claim C8 (amended): for stations with nonnegative distances, each
pollutant observed (with a non-`None` value) at at least one station gets
an averaged entry whose value is `round(Σ(value·weight)/Σ(weight), 2)` —
the weighted average rounded to 2 decimals, not the exact quotient — with
per-station weight `1/(distance_km+1)` and confidence
`min(Σweight × 10, 100)`; stations missing the pollutant contribute
nothing; two equal-distance stations yield the arithmetic mean rounded to
2 decimals; and the averaging runs over all grouped stations even though
`_process_openaq_data` truncates the reported station list to the first 3. -/
theorem C8_weighted_average :
    (∀ (stations : List Station) (p : String) (st0 : Station) (v : ℚ),
        (∀ st ∈ stations, 0 ≤ st.distance_km) →
        st0 ∈ stations → st0.measurements.lookup p = some (some v) →
        (p, round2 (specValueSum stations p / specWeightSum stations p),
          min (specWeightSum stations p * 10) 100) ∈
          calculateWeightedAverage stations) ∧
    (∀ (p n1 n2 : String) (d v1 v2 : ℚ), 0 ≤ d →
        (p, round2 ((v1 + v2) / 2), min (2 * (1 / (d + 1)) * 10) 100) ∈
          calculateWeightedAverage
            [{ name := n1, distance_km := d, measurements := [(p, some v1)] },
             { name := n2, distance_km := d, measurements := [(p, some v2)] }]) ∧
    (∀ (dist : DistanceFn) (raws : List RawMeasurement) (lat lon : ℚ)
        (r : SensorData), processOpenaqData dist raws lat lon = some r →
        r.stations = (groupStations dist lat lon raws).take 3 ∧
        r.averaged_measurements =
          calculateWeightedAverage (groupStations dist lat lon raws)) := by
  have main : ∀ (stations : List Station) (p : String) (st0 : Station) (v : ℚ),
      (∀ st ∈ stations, 0 ≤ st.distance_km) →
      st0 ∈ stations → st0.measurements.lookup p = some (some v) →
      (p, round2 (specValueSum stations p / specWeightSum stations p),
        min (specWeightSum stations p * 10) 100) ∈
        calculateWeightedAverage stations := by
    intro stations p st0 v hd hst hobs
    have hpos := weightSum_pos hd hst hobs
    have hkey : p ∈ paramKeys stations :=
      paramKeys_mem hst (lookup_mem_opt hobs)
    unfold calculateWeightedAverage
    refine List.mem_filterMap.mpr ⟨p, hkey, ?_⟩
    dsimp only
    rw [sumsFor_eq]
    dsimp only
    rw [if_pos hpos]
  refine ⟨main, ?_, ?_⟩
  · intro p n1 n2 d v1 v2 hd
    have hne : d + 1 ≠ 0 := by linarith
    have hmem := main
      [{ name := n1, distance_km := d, measurements := [(p, some v1)] },
       { name := n2, distance_km := d, measurements := [(p, some v2)] }]
      p { name := n1, distance_km := d, measurements := [(p, some v1)] } v1
      (by
        intro st hs
        rcases List.mem_cons.mp hs with rfl | hs2
        · exact hd
        · rcases List.mem_cons.mp hs2 with rfl | hs3
          · exact hd
          · cases hs3)
      (List.mem_cons_self _ _)
      (by
        have hb : (p == p) = true := beq_self_eq_true p
        simp [List.lookup, hb])
    have hSv : specValueSum
        [{ name := n1, distance_km := d, measurements := [(p, some v1)] },
         { name := n2, distance_km := d, measurements := [(p, some v2)] }] p =
        (1 / (d + 1)) * (v1 + v2) := by
      unfold specValueSum stationWeight
      have hb : (p == p) = true := beq_self_eq_true p
      simp only [List.map_cons, List.map_nil, List.sum_cons, List.sum_nil,
        List.lookup, hb]
      ring
    have hSw : specWeightSum
        [{ name := n1, distance_km := d, measurements := [(p, some v1)] },
         { name := n2, distance_km := d, measurements := [(p, some v2)] }] p =
        (1 / (d + 1)) * 2 := by
      unfold specWeightSum stationWeight
      have hb : (p == p) = true := beq_self_eq_true p
      simp only [List.map_cons, List.map_nil, List.sum_cons, List.sum_nil,
        List.lookup, hb]
      ring
    rw [hSv, hSw] at hmem
    have harg : (1 / (d + 1)) * (v1 + v2) / ((1 / (d + 1)) * 2) = (v1 + v2) / 2 :=
      mul_div_mul_left _ _ (one_div_ne_zero hne)
    have hcon : (1 / (d + 1)) * 2 * 10 = 2 * (1 / (d + 1)) * 10 := by ring
    rw [harg, hcon] at hmem
    exact hmem
  · intro dist raws lat lon r hr
    unfold processOpenaqData at hr
    by_cases hraws : raws = []
    · rw [if_pos hraws] at hr
      cases hr
    · rw [if_neg hraws] at hr
      cases hr
      exact ⟨rfl, rfl⟩

/-- Claim C8 (witness): the amended theorem's equal-distance clause applied
at two concrete stations. -/
theorem C8_witness :
    ("pm25", round2 ((1 + 3) / 2), min (2 * (1 / ((0 : ℚ) + 1)) * 10) 100) ∈
      calculateWeightedAverage
        [{ name := "a", distance_km := 0, measurements := [("pm25", some 1)] },
         { name := "b", distance_km := 0, measurements := [("pm25", some 3)] }] :=
  C8_weighted_average.2.1 "pm25" "a" "b" 0 1 3 (by norm_num)

/-! ### Claim C9: synthesizer determinism under quantization -/

/-- Claim C9 (counterexample): the synthesizers are not a pure function of
the numerically rounded 3-decimal coordinates.  First, latitudes 5.9999 and
6.0001 format to the same token "6.000" (with lon = 70), yet the mock
ground synthesizer produces different pm25 values — 16.5 vs 45 with every
draw fixed at 1/2 — because the `is_india` region flag is computed from the
RAW latitude (6 ≤ lat).  Second, −0.0001 and 0.0001 round to the same
3-decimal numeric value 0.000, yet their formatted seed tokens differ
("-0.000" vs "0.000"), so the md5 seeds — and hence both generators'
draws — differ as well. -/
theorem C9_counterexample :
    fmt3 (5.9999 : ℚ) = fmt3 (6.0001 : ℚ) ∧
    (mockOpenaqValues (fun _ _ => 1/2) 6.0001 70).pm25 = 45 ∧
    (mockOpenaqValues (fun _ _ => 1/2) 5.9999 70).pm25 = 16.5 ∧
    ((45 : ℚ) ≠ 16.5) ∧
    fmt3 (-0.0001 : ℚ) ≠ fmt3 (0.0001 : ℚ) := by
  have hq1 : fmt3 (5.9999 : ℚ) = (false, 6000) :=
    @fmt3_eval_pos (5.9999 : ℚ) 6000 (by norm_num)
      (by norm_num [pyRound, Int.floor_eq_iff])
  have hq2 : fmt3 (6.0001 : ℚ) = (false, 6000) :=
    @fmt3_eval_pos (6.0001 : ℚ) 6000 (by norm_num)
      (by norm_num [pyRound, Int.floor_eq_iff])
  have hp1 : pyRound (6.0001 : ℚ) = 6 := by
    norm_num [pyRound, Int.floor_eq_iff]
  have hp2 : pyRound (5.9999 : ℚ) = 6 := by
    norm_num [pyRound, Int.floor_eq_iff]
  have hp70 : pyRound (70 : ℚ) = 70 := by
    norm_num [pyRound, Int.floor_eq_iff]
  have hi1 : isIndia 6.0001 70 = true := by
    unfold isIndia
    rw [decide_eq_true_eq]
    norm_num
  have hi2 : isIndia 5.9999 70 = false := by
    unfold isIndia
    rw [decide_eq_false_iff_not]
    intro h
    have := h.1
    norm_num at this
  have hu1 : isUrban 6.0001 70 = true := by
    unfold isUrban
    rw [hp1, hp70, decide_eq_true_eq]
    constructor
    · rw [abs_of_pos (by norm_num)]
      norm_num
    · rw [show ((70 : ℚ) - ((70 : ℤ) : ℚ)) = 0 by norm_num]
      norm_num
  have hu2 : isUrban 5.9999 70 = true := by
    unfold isUrban
    rw [hp2, hp70, decide_eq_true_eq]
    constructor
    · rw [abs_of_neg (by norm_num)]
      norm_num
    · rw [show ((70 : ℚ) - ((70 : ℤ) : ℚ)) = 0 by norm_num]
      norm_num
  have hsz : fmt3 (-0.0001 : ℚ) ≠ fmt3 (0.0001 : ℚ) := by
    rw [@fmt3_eval_neg (-0.0001 : ℚ) 0 (by norm_num)
        (by norm_num [pyRound, Int.floor_eq_iff]),
      @fmt3_eval_pos (0.0001 : ℚ) 0 (by norm_num)
        (by norm_num [pyRound, Int.floor_eq_iff])]
    intro h
    have hfst := congrArg Prod.fst h
    simp at hfst
  refine ⟨by rw [hq1, hq2], ?_, ?_, by norm_num, hsz⟩
  · unfold mockOpenaqValues
    dsimp only
    rw [hi1, hu1]
    norm_num [uniformFrom, round1, pyRound, Int.floor_eq_iff]
  · unfold mockOpenaqValues
    dsimp only
    rw [hi2, hu2]
    norm_num [uniformFrom, round1, pyRound, Int.floor_eq_iff]

/-- Claim C9 (amended): the mock ground synthesizer produces identical
pollutant values on coordinate pairs whose formatted 3-decimal seed tokens
agree — sign included, so "-0.000" and "0.000" are distinct seeds — AND
whose raw-coordinate region flags is_india and is_urban agree; the
emergency generator additionally requires equal |lat| and |lon|, since its
pollutant base levels use the raw coordinates. -/
theorem C9_synthesis_determinism (srand : SeededRand)
    (lat1 lon1 lat2 lon2 : ℚ)
    (hq1 : fmt3 lat1 = fmt3 lat2)
    (hq2 : fmt3 lon1 = fmt3 lon2) :
    (isIndia lat1 lon1 = isIndia lat2 lon2 →
      isUrban lat1 lon1 = isUrban lat2 lon2 →
      mockOpenaqValues srand lat1 lon1 = mockOpenaqValues srand lat2 lon2) ∧
    (|lat1| = |lat2| → |lon1| = |lon2| →
      emergencyValues srand lat1 lon1 = emergencyValues srand lat2 lon2) := by
  constructor
  · intro hi hu
    unfold mockOpenaqValues
    rw [hq1, hq2, hi, hu]
  · intro h1 h2
    unfold emergencyValues
    rw [hq1, hq2, h1, h2]

/-- Claim C9 (witness): the determinism theorem at the spec's example pair
40.7001 vs 40.7002 (longitudes −74.0001 vs −74.0002). -/
theorem C9_witness :
    mockOpenaqValues (fun _ _ => 1/2) 40.7001 (-74.0001) =
      mockOpenaqValues (fun _ _ => 1/2) 40.7002 (-74.0002) := by
  have hq1 : fmt3 (40.7001 : ℚ) = fmt3 (40.7002 : ℚ) := by
    rw [@fmt3_eval_pos (40.7001 : ℚ) 40700 (by norm_num)
        (by norm_num [pyRound, Int.floor_eq_iff]),
      @fmt3_eval_pos (40.7002 : ℚ) 40700 (by norm_num)
        (by norm_num [pyRound, Int.floor_eq_iff])]
  have hq2 : fmt3 (-74.0001 : ℚ) = fmt3 (-74.0002 : ℚ) := by
    rw [@fmt3_eval_neg (-74.0001 : ℚ) 74000 (by norm_num)
        (by norm_num [pyRound, Int.floor_eq_iff]),
      @fmt3_eval_neg (-74.0002 : ℚ) 74000 (by norm_num)
        (by norm_num [pyRound, Int.floor_eq_iff])]
  have hi : isIndia 40.7001 (-74.0001) = isIndia 40.7002 (-74.0002) := by
    have e1 : isIndia 40.7001 (-74.0001) = false := by
      unfold isIndia
      rw [decide_eq_false_iff_not]
      intro h
      have := h.2.2.1
      norm_num at this
    have e2 : isIndia 40.7002 (-74.0002) = false := by
      unfold isIndia
      rw [decide_eq_false_iff_not]
      intro h
      have := h.2.2.1
      norm_num at this
    rw [e1, e2]
  have hu : isUrban 40.7001 (-74.0001) = isUrban 40.7002 (-74.0002) := by
    have p1 : pyRound (40.7001 : ℚ) = 41 := by
      norm_num [pyRound, Int.floor_eq_iff]
    have p2 : pyRound (40.7002 : ℚ) = 41 := by
      norm_num [pyRound, Int.floor_eq_iff]
    have e1 : isUrban 40.7001 (-74.0001) = false := by
      unfold isUrban
      rw [p1, decide_eq_false_iff_not]
      intro h
      have h1 := h.1
      rw [abs_of_neg (by norm_num)] at h1
      norm_num at h1
    have e2 : isUrban 40.7002 (-74.0002) = false := by
      unfold isUrban
      rw [p2, decide_eq_false_iff_not]
      intro h
      have h1 := h.1
      rw [abs_of_neg (by norm_num)] at h1
      norm_num at h1
    rw [e1, e2]
  exact (C9_synthesis_determinism (fun _ _ => 1/2) 40.7001 (-74.0001)
    40.7002 (-74.0002) hq1 hq2).1 hi hu

/-! ### Claim C10: ground and weather fetches never return None -/

theorem getGroundData_isSome (dist : DistanceFn) (srand : SeededRand)
    (first second : NetOutcome (List RawMeasurement)) (lat lon : ℚ) :
    (getGroundData dist srand first second lat lon).isSome = true := by
  unfold getGroundData
  rcases first with _ | ⟨status, ms⟩
  · rfl
  · dsimp only
    by_cases h1 : status = 200 ∧ ms ≠ []
    · rw [if_pos h1]
      unfold processOpenaqData
      rw [if_neg h1.2]
      rfl
    · rw [if_neg h1]
      by_cases h2 : status ≠ 200
      · rw [if_pos h2]
        rfl
      · rw [if_neg h2]
        rcases second with _ | ⟨s2, ms2⟩
        · rfl
        · dsimp only
          by_cases h3 : s2 = 200 ∧ ms2 ≠ []
          · rw [if_pos h3]
            unfold processOpenaqData
            rw [if_neg h3.2]
            rfl
          · rw [if_neg h3]
            rfl

theorem getWeatherData_isSome (keyUsable : Bool) (urand : RandStream)
    (outcome : NetOutcome WeatherRaw) :
    (getWeatherData keyUsable urand outcome).isSome = true := by
  unfold getWeatherData
  rcases keyUsable with _ | _
  · rfl
  · rcases outcome with _ | ⟨status, raw⟩
    · rfl
    · show (if status = 200 then some (processWeatherData raw)
        else some (getMockWeatherData urand)).isSome = true
      split_ifs <;> rfl

/-- Claim C10: `get_ground_data` and `get_weather_data` never return `None`
— every failure path (exception, non-200 status, empty result set, missing
credentials) ends in synthesized mock data — so in
`get_comprehensive_air_quality` the all-sources-failed emergency condition
is false (the branch is unreachable), the result's ground_sensors and
weather flags are always true, and data_quality is "high" exactly when the
satellite fetch returned non-`None`. -/
theorem C10_never_none (tokenPresent keyUsable aqKey : Bool)
    (urandT urandW : RandStream) (srand : SeededRand) (dist : DistanceFn)
    (first second : NetOutcome (List RawMeasurement))
    (wOutcome : NetOutcome WeatherRaw) (cascade : Option AqicnRaw)
    (lat lon : ℚ) (fb : ℤ) (fr : ℚ) :
    (getGroundData dist srand first second lat lon).isSome = true ∧
    (getWeatherData keyUsable urandW wOutcome).isSome = true ∧
    allSourcesAbsent (getSatelliteData tokenPresent urandT lat lon)
      (getGroundData dist srand first second lat lon)
      (getAqicnData aqKey cascade)
      (getWeatherData keyUsable urandW wOutcome) = false ∧
    (getComprehensiveAirQuality
        (.val (getSatelliteData tokenPresent urandT lat lon))
        (.val (getGroundData dist srand first second lat lon))
        (.val (getAqicnData aqKey cascade))
        (.val (getWeatherData keyUsable urandW wOutcome))
        lat lon srand fb fr).fusion.ground = true ∧
    (getComprehensiveAirQuality
        (.val (getSatelliteData tokenPresent urandT lat lon))
        (.val (getGroundData dist srand first second lat lon))
        (.val (getAqicnData aqKey cascade))
        (.val (getWeatherData keyUsable urandW wOutcome))
        lat lon srand fb fr).fusion.weather = true ∧
    ((getComprehensiveAirQuality
        (.val (getSatelliteData tokenPresent urandT lat lon))
        (.val (getGroundData dist srand first second lat lon))
        (.val (getAqicnData aqKey cascade))
        (.val (getWeatherData keyUsable urandW wOutcome))
        lat lon srand fb fr).fusion.data_quality = "high" ↔
      (getSatelliteData tokenPresent urandT lat lon).isSome = true) := by
  set t := getSatelliteData tokenPresent urandT lat lon with hT
  set g := getGroundData dist srand first second lat lon with hG
  set a := getAqicnData aqKey cascade with hA
  set w := getWeatherData keyUsable urandW wOutcome with hW
  have hg : g.isSome = true := getGroundData_isSome dist srand first second lat lon
  have hw : w.isSome = true := getWeatherData_isSome keyUsable urandW wOutcome
  have habs : allSourcesAbsent t g a w = false := by
    unfold allSourcesAbsent
    rw [hg]
    simp
  have hcomp : (getComprehensiveAirQuality (.val t) (.val g) (.val a) (.val w)
      lat lon srand fb fr).fusion = fuseDataSources t g a w fb fr := by
    unfold getComprehensiveAirQuality outcomeData
    dsimp only
    rw [habs]
    simp
  refine ⟨hg, hw, habs, ?_, ?_, ?_⟩
  · rw [hcomp]
    unfold fuseDataSources
    dsimp only
    rw [hg]
    simp
  · rw [hcomp]
    unfold fuseDataSources
    dsimp only
    exact hw
  · rw [hcomp]
    unfold fuseDataSources
    dsimp only
    rcases ht : t.isSome with _ | _
    · rw [if_neg (fun hcon => absurd hcon.1 (by simp))]
      constructor
      · intro h
        exact absurd h (by decide)
      · intro h
        exact absurd h (by simp)
    · rw [if_pos ⟨rfl, Or.inl hg, hw⟩]
      constructor
      · intro _
        rfl
      · intro _
        rfl
